import Mathlib

/-!
Verification of the littleOS core subsystems against their specification.

Shallow embedding: each definition below translates one C function or data
structure of the repository (file and line references are given in the doc
comments). Machine integers are modelled as Nat with explicit reductions
mod 2 ^ 32 or 2 ^ 16 where the C arithmetic can wrap; fallible C functions
return a status value paired with the updated state, exactly as the C
returns a status and mutates state through pointers.
-/

namespace LittleOS

/-! ## Permission and capability model

Translated from src/src/sys/permissions.c and src/include/permissions.h. -/

/-- Security context of a task: task_sec_ctx_t (include/permissions.h).
uid_t and gid_t are 16-bit ids in C; they are modelled as Nat because the
code only ever compares them for equality. -/
structure task_sec_ctx_t where
  uid : Nat
  gid : Nat
  euid : Nat
  egid : Nat
  umask : Nat
  capabilities : Nat
deriving DecidableEq

/-- Resource permission record: resource_perm_t (include/permissions.h). -/
structure resource_perm_t where
  perms : Nat
  owner_uid : Nat
  owner_gid : Nat
  rtype : Nat
  flags : Nat
deriving DecidableEq

/-- UID_ROOT constant (include/permissions.h). -/
def UID_ROOT : Nat := 0

/-- GID_ROOT constant (include/permissions.h). -/
def GID_ROOT : Nat := 0

/-- GID_USERS constant (include/permissions.h). -/
def GID_USERS : Nat := 100

/-- CAP_ALL constant (include/permissions.h). -/
def CAP_ALL : Nat := 0xFFFFFFFF

/-- PERM_GET_OWNER macro (include/permissions.h): bits 8..6 of the mode. -/
def PERM_GET_OWNER (bits : Nat) : Nat := (bits >>> 6) &&& 0x7

/-- PERM_GET_GROUP macro (include/permissions.h): bits 5..3 of the mode. -/
def PERM_GET_GROUP (bits : Nat) : Nat := (bits >>> 3) &&& 0x7

/-- PERM_GET_OTHER macro (include/permissions.h): bits 2..0 of the mode. -/
def PERM_GET_OTHER (bits : Nat) : Nat := bits &&& 0x7

/-- perm_check (src/src/sys/permissions.c lines 15-47). Note that each branch
tests `(class_bits & required_perm) != 0`: any single granted bit of the
requested combination suffices. -/
def perm_check (task_ctx : task_sec_ctx_t) (resource_perm : resource_perm_t)
    (required_perm : Nat) : Bool :=
  let effective_uid := task_ctx.euid
  let effective_gid := task_ctx.egid
  if effective_uid = UID_ROOT then
    true
  else if effective_uid = resource_perm.owner_uid then
    (PERM_GET_OWNER resource_perm.perms &&& required_perm) != 0
  else if effective_gid = resource_perm.owner_gid then
    (PERM_GET_GROUP resource_perm.perms &&& required_perm) != 0
  else
    (PERM_GET_OTHER resource_perm.perms &&& required_perm) != 0

/-- Access check as the specification claim words it ("the mode bits include
the requested permissions"): identical case structure, but each branch
requires ALL requested bits to be present. Written from the claim, to be
compared with perm_check (which is written from the source). -/
def perm_check_claimed (task_ctx : task_sec_ctx_t) (resource_perm : resource_perm_t)
    (required_perm : Nat) : Bool :=
  if task_ctx.euid = UID_ROOT then
    true
  else if task_ctx.euid = resource_perm.owner_uid then
    (PERM_GET_OWNER resource_perm.perms &&& required_perm) == required_perm
  else if task_ctx.egid = resource_perm.owner_gid then
    (PERM_GET_GROUP resource_perm.perms &&& required_perm) == required_perm
  else
    (PERM_GET_OTHER resource_perm.perms &&& required_perm) == required_perm

/-- perm_chmod (src/src/sys/permissions.c lines 152-169). Note the owner test
compares the REAL uid (task_ctx->uid), while the root test compares the
effective uid. Returns the C result and the resource record after the call. -/
def perm_chmod (task_ctx : task_sec_ctx_t) (resource : resource_perm_t)
    (new_perms : Nat) : Bool × resource_perm_t :=
  if task_ctx.uid = resource.owner_uid then
    (true, { resource with perms := new_perms })
  else if task_ctx.euid = UID_ROOT then
    (true, { resource with perms := new_perms })
  else
    (false, resource)

/-! ## Watchdog facade

Translated from src/src/drivers/watchdog.c and src/include/watchdog.h. -/

/-- Watchdog driver state (src/src/drivers/watchdog.c, static wdt_state).
last_reset_reason holds a watchdog_reset_reason_t value. -/
structure wdt_state_t where
  enabled : Bool
  timeout_ms : Nat
  feed_count : Nat
  last_feed_time_ms : Nat
  last_reset_reason : Nat
deriving DecidableEq

/-- WATCHDOG_TIMEOUT_MIN_MS (include/watchdog.h). -/
def WATCHDOG_TIMEOUT_MIN_MS : Nat := 1

/-- WATCHDOG_TIMEOUT_MAX_MS (include/watchdog.h): the RP2040 hardware maximum. -/
def WATCHDOG_TIMEOUT_MAX_MS : Nat := 8388

/-- WATCHDOG_RESET_NONE (include/watchdog.h). -/
def WATCHDOG_RESET_NONE : Nat := 0

/-- WATCHDOG_RESET_TIMEOUT (include/watchdog.h). -/
def WATCHDOG_RESET_TIMEOUT : Nat := 1

/-- wdt_init (src/src/drivers/watchdog.c lines 29-51). caused_reboot models the
hardware query watchdog_caused_reboot(); now_ms models to_ms_since_boot.
Returns the C bool result and the driver state after the call. -/
def wdt_init (st : wdt_state_t) (timeout_ms : Nat) (caused_reboot : Bool)
    (now_ms : Nat) : Bool × wdt_state_t :=
  if timeout_ms < WATCHDOG_TIMEOUT_MIN_MS ∨ timeout_ms > WATCHDOG_TIMEOUT_MAX_MS then
    (false, st)
  else
    let st := if caused_reboot
      then { st with last_reset_reason := WATCHDOG_RESET_TIMEOUT }
      else { st with last_reset_reason := WATCHDOG_RESET_NONE }
    (true, { st with timeout_ms := timeout_ms, enabled := false, feed_count := 0,
                     last_feed_time_ms := now_ms })

/-- wdt_enable (src/src/drivers/watchdog.c lines 56-69). The hardware call
watchdog_enable(timeout_ms, 1) only affects the peripheral and is not part of
the driver state. Returns the C bool result and the state after the call. -/
def wdt_enable (st : wdt_state_t) (timeout_ms : Nat) (now_ms : Nat) :
    Bool × wdt_state_t :=
  if timeout_ms < WATCHDOG_TIMEOUT_MIN_MS ∨ timeout_ms > WATCHDOG_TIMEOUT_MAX_MS then
    (false, st)
  else
    (true, { st with timeout_ms := timeout_ms, enabled := true, feed_count := 0,
                     last_feed_time_ms := now_ms })

/-! ## Segmented memory manager

Translated from src/src/kernel/memory_segmented.c. size_t on the RP2040
target is 32 bits; arithmetic on it wraps mod 2 ^ 32. -/

/-- KERNEL_HEAP_BASE (memory_segmented.c). -/
def KERNEL_HEAP_BASE : Nat := 0x20000000

/-- KERNEL_HEAP_SIZE (memory_segmented.c): 64 KiB. -/
def KERNEL_HEAP_SIZE : Nat := 64 * 1024

/-- KERNEL_HEAP_END (memory_segmented.c). -/
def KERNEL_HEAP_END : Nat := KERNEL_HEAP_BASE + KERNEL_HEAP_SIZE

/-- INTERPRETER_HEAP_BASE (memory_segmented.c). -/
def INTERPRETER_HEAP_BASE : Nat := KERNEL_HEAP_END

/-- INTERPRETER_HEAP_SIZE (memory_segmented.c): 64 KiB. -/
def INTERPRETER_HEAP_SIZE : Nat := 64 * 1024

/-- One bump-allocator region (memory_segmented.c, struct MemoryRegion).
Addresses are the absolute RP2040 SRAM addresses hardcoded in the source.
The C field named end is spelled end_addr here (end is a Lean keyword). -/
structure MemoryRegion where
  start : Nat
  end_addr : Nat
  current : Nat
  max_size : Nat
  used_size : Nat
  peak_size : Nat
  allocation_count : Nat
deriving DecidableEq

/-- Initial kernel_heap region (memory_segmented.c, static kernel_heap). -/
def kernel_heap_init : MemoryRegion :=
  { start := KERNEL_HEAP_BASE, end_addr := KERNEL_HEAP_END,
    current := KERNEL_HEAP_BASE, max_size := KERNEL_HEAP_SIZE,
    used_size := 0, peak_size := 0, allocation_count := 0 }

/-- Initial interpreter_heap region (memory_segmented.c, static interpreter_heap). -/
def interpreter_heap_init : MemoryRegion :=
  { start := INTERPRETER_HEAP_BASE, end_addr := INTERPRETER_HEAP_BASE + INTERPRETER_HEAP_SIZE,
    current := INTERPRETER_HEAP_BASE, max_size := INTERPRETER_HEAP_SIZE,
    used_size := 0, peak_size := 0, allocation_count := 0 }

/-- Bump allocation from a region. kernel_malloc (memory_segmented.c lines
115-142) and interpreter_malloc (lines 194-221) are textually identical up to
the region they operate on; this is that common body. The alignment step
(size + 7) & ~7 is 32-bit size_t arithmetic. Returns the pointer (none for
NULL) and the region after the call. -/
def region_malloc (r : MemoryRegion) (size : Nat) : Option Nat × MemoryRegion :=
  if size = 0 then
    (none, r)
  else
    let size := ((size + 7) % 2 ^ 32) &&& 0xFFFFFFF8
    if r.current + size > r.end_addr then
      (none, r)
    else
      let ptr := r.current
      let used := r.used_size + size
      (some ptr,
       { r with current := r.current + size,
                used_size := used,
                allocation_count := r.allocation_count + 1,
                peak_size := if used > r.peak_size then used else r.peak_size })

/-- kernel_calloc (memory_segmented.c lines 150-160): computes
total = count * size in 32-bit size_t arithmetic (wrapping on overflow,
there is no overflow check in the source) and calls kernel_malloc(total);
the memset of the returned bytes does not change the region bookkeeping. -/
def kernel_calloc (r : MemoryRegion) (count size : Nat) : Option Nat × MemoryRegion :=
  let total := (count * size) % 2 ^ 32
  region_malloc r total

/-- interpreter_calloc (memory_segmented.c lines 229-239): same body as
kernel_calloc, on the interpreter region. -/
def interpreter_calloc (r : MemoryRegion) (count size : Nat) : Option Nat × MemoryRegion :=
  let total := (count * size) % 2 ^ 32
  region_malloc r total

/-! ## Task scheduler

Translated from src/src/drivers/scheduler.c and src/include/scheduler.h. -/

/-- LITTLEOS_MAX_TASKS (include/scheduler.h). -/
def LITTLEOS_MAX_TASKS : Nat := 16

/-- LITTLEOS_TASK_STACK_SIZE (include/scheduler.h). -/
def LITTLEOS_TASK_STACK_SIZE : Nat := 4096

/-- task_state_t (include/scheduler.h). -/
inductive task_state_t where
  | idle
  | ready
  | running
  | blocked
  | suspended
  | terminated
deriving DecidableEq

/-- task_priority_t (include/scheduler.h): LOW = 0, NORMAL = 1, HIGH = 2,
CRITICAL = 3. -/
inductive task_priority_t where
  | low
  | normal
  | high
  | critical
deriving DecidableEq

/-- Numeric value of a task_priority_t enumerator. All enumerators are
non-negative, so GCC gives the enumerated type an unsigned 32-bit underlying
type; the cast (task_priority_t)(-1) in scheduler.c therefore has the value
4294967295 and priority comparisons are unsigned. -/
def task_priority_t.toNat : task_priority_t → Nat
  | .low => 0
  | .normal => 1
  | .high => 2
  | .critical => 3

/-- Task descriptor: task_descriptor_t (include/scheduler.h). The entry
function pointer and the opaque argument are modelled by their addresses
(0 = NULL); the reserved tail bytes are omitted. -/
structure task_descriptor_t where
  task_id : Nat
  name : List Nat
  state : task_state_t
  priority : task_priority_t
  core_affinity : Nat
  entry_func : Nat
  arg : Nat
  sec_ctx : task_sec_ctx_t
  stack_base : Nat
  stack_size : Nat
  memory_allocated : Nat
  memory_peak : Nat
  created_at_ms : Nat
  total_runtime_ms : Nat
  context_switches : Nat
deriving DecidableEq

/-- Whole scheduler state (scheduler.c statics): the live prefix of
task_table (indices 0 ≤ i < task_count become list positions), the two
per-core ready queues with their rotating indices, the static next_id of
alloc_task_id, and current_task_id. -/
structure sched_state_t where
  task_table : List task_descriptor_t
  current_task_id : Nat
  core0_queue : List Nat
  core0_current_index : Nat
  core1_queue : List Nat
  core1_current_index : Nat
  next_id : Nat
deriving DecidableEq

/-- State after scheduler_init (scheduler.c lines 110-124): everything zeroed,
and the static next_id of alloc_task_id at its initial value 1. -/
def sched_init : sched_state_t :=
  { task_table := [], current_task_id := 0,
    core0_queue := [], core0_current_index := 0,
    core1_queue := [], core1_current_index := 0,
    next_id := 1 }

/-- find_task (scheduler.c lines 59-66): first table entry with the id. -/
def find_task (table : List task_descriptor_t) (task_id : Nat) :
    Option task_descriptor_t :=
  table.find? (fun t => t.task_id == task_id)

/-- add_to_queue (scheduler.c lines 77-81). -/
def add_to_queue (q : List Nat) (task_id : Nat) : List Nat :=
  if q.length < LITTLEOS_MAX_TASKS then q ++ [task_id] else q

/-- remove_from_queue (scheduler.c lines 83-96): drops the first occurrence of
the id and shifts the tail left; returns the queue and the adjusted
current_index. -/
def remove_from_queue (q : List Nat) (current_index : Nat) (task_id : Nat) :
    List Nat × Nat :=
  match q.indexOf? task_id with
  | none => (q, current_index)
  | some i =>
    let q := q.eraseIdx i
    let ci := if current_index ≥ q.length ∧ q.length > 0 then 0 else current_index
    (q, ci)

/-- alloc_task_id (scheduler.c lines 33-57). When the table is nearly full
(task_count ≥ LITTLEOS_MAX_TASKS - 1) the code first searches ids
1..0xFFFE for one not present in the table; if the search fails, or the table
is not nearly full, it falls through to the static counter next_id, which is
post-incremented with a 16-bit wrap that skips 0. -/
def alloc_task_id (st : sched_state_t) : Nat × sched_state_t :=
  let counter : Nat × sched_state_t :=
    let id := st.next_id
    let nxt := (st.next_id + 1) % 65536
    let nxt := if nxt = 0 then 1 else nxt
    (id, { st with next_id := nxt })
  if st.task_table.length ≥ LITTLEOS_MAX_TASKS - 1 then
    match (List.range' 1 65534).find?
        (fun i => !(st.task_table.any (fun t => t.task_id == i))) with
    | some id => (id, st)
    | none => counter
  else
    counter

/-- task_create (scheduler.c lines 126-198). The scheduler is taken as
initialized (the traces below start from sched_init). The platform stack
allocation malloc(LITTLEOS_TASK_STACK_SIZE) is modelled as succeeding with a
fixed nonzero address, matching a platform whose allocator does not fail;
now_ms models get_timestamp_ms(). A NULL name would be replaced by "unnamed";
the model takes the name as a byte list and applies the strncpy truncation to
LITTLEOS_MAX_TASK_NAME - 1 bytes. Returns the id (0xFFFF on failure) and the
scheduler state after the call. -/
def task_create (st : sched_state_t) (name : List Nat) (entry : Nat) (arg : Nat)
    (priority : task_priority_t) (core : Nat) (uid : Nat) (now_ms : Nat) :
    Nat × sched_state_t :=
  if st.task_table.length ≥ LITTLEOS_MAX_TASKS then
    (0xFFFF, st)
  else if entry = 0 then
    (0xFFFF, st)
  else
    let (id, st) := alloc_task_id st
    let sec : task_sec_ctx_t :=
      if uid = UID_ROOT then
        { uid := uid, gid := GID_ROOT, euid := uid, egid := GID_ROOT,
          umask := 0o22, capabilities := CAP_ALL }
      else
        { uid := uid, gid := GID_USERS, euid := uid, egid := GID_USERS,
          umask := 0o22, capabilities := 0 }
    let task : task_descriptor_t :=
      { task_id := id, name := name.take 31, state := .ready,
        priority := priority, core_affinity := core,
        entry_func := entry, arg := arg, sec_ctx := sec,
        stack_base := 0x20030000, stack_size := LITTLEOS_TASK_STACK_SIZE,
        memory_allocated := 0, memory_peak := 0,
        created_at_ms := now_ms, total_runtime_ms := 0, context_switches := 0 }
    let st := { st with task_table := st.task_table ++ [task] }
    let st :=
      if core = 0 then
        { st with core0_queue := add_to_queue st.core0_queue id }
      else if core = 1 then
        { st with core1_queue := add_to_queue st.core1_queue id }
      else if st.core0_queue.length ≤ st.core1_queue.length then
        { st with core0_queue := add_to_queue st.core0_queue id }
      else
        { st with core1_queue := add_to_queue st.core1_queue id }
    (id, st)

/-- task_terminate (scheduler.c lines 200-231): looks the id up, releases the
stack, removes the id from the queues selected by the core affinity, marks the
slot terminated, compacts the table by copying the last live slot over the
freed one, and decrements task_count. Returns the C bool result and the state
after the call. -/
def task_terminate (st : sched_state_t) (task_id : Nat) : Bool × sched_state_t :=
  match (st.task_table.map (fun t => t.task_id)).indexOf? task_id with
  | none => (false, st)
  | some idx =>
    let n := st.task_table.length
    let affinity := ((st.task_table.get? idx).map (fun t => t.core_affinity)).getD 0
    let st :=
      if affinity = 0 ∨ affinity = 2 then
        let (q, ci) := remove_from_queue st.core0_queue st.core0_current_index task_id
        { st with core0_queue := q, core0_current_index := ci }
      else st
    let st :=
      if affinity = 1 ∨ affinity = 2 then
        let (q, ci) := remove_from_queue st.core1_queue st.core1_current_index task_id
        { st with core1_queue := q, core1_current_index := ci }
      else st
    let table :=
      if idx < n - 1 then
        match st.task_table.get? (n - 1) with
        | some last => (st.task_table.set idx last).take (n - 1)
        | none => st.task_table.take (n - 1)
      else
        st.task_table.take (n - 1)
    (true, { st with task_table := table })

/-- scheduler_next_task_core0 (scheduler.c lines 395-421). max_priority starts
as (task_priority_t)(-1), which on the unsigned 32-bit enum type is
4294967295, and the scan updates the selection only on a strictly greater
priority. Returns the selected id and the state after the call
(current_task_id is updated when the selection is nonzero). -/
def scheduler_next_task_core0 (st : sched_state_t) : Nat × sched_state_t :=
  if st.core0_queue.length = 0 then
    (0, st)
  else
    let scan := st.core0_queue.foldl
      (fun (acc : Nat × Nat) task_id =>
        match find_task st.task_table task_id with
        | some task =>
          if (task.state = task_state_t.ready ∨ task.state = task_state_t.running) ∧
              task.priority.toNat > acc.1 then
            (task.priority.toNat, task_id)
          else acc
        | none => acc)
      (4294967295, 0)
    let selected := scan.2
    if selected ≠ 0 then
      (selected, { st with current_task_id := selected })
    else
      (selected, st)

/-! ## Log-structured filesystem

Translated from src/include/fs.h and src/src/drivers/fs/fs_core.c,
fs_inode.c, fs_dir.c, fs_file.c.

The disk is modelled at block granularity: the backend stores, per block
address, the typed value the filesystem wrote there (a 512-byte data image,
a superblock, a checkpoint, a NAT or SIT slice, an inode, or a directory
block). The C code writes each of these through memcpy of the packed struct
and reads it back with the same struct type, so the typed view is the byte
view under the bit-exact layouts of fs.h; the byte images enter explicitly
only where the code hashes bytes (CRC32 over the serialized record). A block
never written holds 512 zero bytes, which parses as an all-zero record or an
empty directory, exactly as zeroed flash would. -/

/-- FS_MAGIC (fs.h). -/
def FS_MAGIC : Nat := 0xF2FE

/-- FS_VERSION (fs.h). -/
def FS_VERSION : Nat := 1

/-- FS_BLOCK_SIZE (fs.h). -/
def FS_BLOCK_SIZE : Nat := 512

/-- FS_SEGMENT_SIZE (fs.h). -/
def FS_SEGMENT_SIZE : Nat := 4096

/-- FS_BLOCKS_PER_SEGMENT (fs.h): 8. -/
def FS_BLOCKS_PER_SEGMENT : Nat := FS_SEGMENT_SIZE / FS_BLOCK_SIZE

/-- FS_DEFAULT_MAX_INODES (fs.h). -/
def FS_DEFAULT_MAX_INODES : Nat := 256

/-- FS_INVALID_BLOCK (fs.h). -/
def FS_INVALID_BLOCK : Nat := 0xFFFFFFFF

/-- FS_INVALID_INODE (fs.h). -/
def FS_INVALID_INODE : Nat := 0

/-- FS_SB_BLOCK (fs.h). -/
def FS_SB_BLOCK : Nat := 0

/-- FS_CP0_BLOCK (fs.h). -/
def FS_CP0_BLOCK : Nat := 1

/-- FS_CP1_BLOCK (fs.h). -/
def FS_CP1_BLOCK : Nat := 2

/-- FS_FIXED_METADATA_BLOCKS (fs.h). -/
def FS_FIXED_METADATA_BLOCKS : Nat := 3

/-- FS_ROOT_INODE (fs.h). -/
def FS_ROOT_INODE : Nat := 2

/-- FS_DIRECT_BLOCKS (fs.h). -/
def FS_DIRECT_BLOCKS : Nat := 10

/-- FS_MODE_REG (fs.h). -/
def FS_MODE_REG : Nat := 0x8000

/-- FS_MODE_DIR (fs.h). -/
def FS_MODE_DIR : Nat := 0x4000

/-- FS_O_RDONLY (fs.h). -/
def FS_O_RDONLY : Nat := 0x0

/-- FS_O_WRONLY (fs.h). -/
def FS_O_WRONLY : Nat := 0x1

/-- FS_O_CREAT (fs.h). -/
def FS_O_CREAT : Nat := 0x8

/-- FS_O_TRUNC (fs.h). -/
def FS_O_TRUNC : Nat := 0x10

/-- FS_OK (fs.h). -/
def FS_OK : Int := 0

/-- FS_ERR_NO_SPACE (fs.h). -/
def FS_ERR_NO_SPACE : Int := -1

/-- FS_ERR_NOT_FOUND (fs.h). -/
def FS_ERR_NOT_FOUND : Int := -2

/-- FS_ERR_EXISTS (fs.h). -/
def FS_ERR_EXISTS : Int := -3

/-- FS_ERR_INVALID_INODE (fs.h). -/
def FS_ERR_INVALID_INODE : Int := -4

/-- FS_ERR_INVALID_BLOCK (fs.h). -/
def FS_ERR_INVALID_BLOCK : Int := -5

/-- FS_ERR_IO (fs.h). -/
def FS_ERR_IO : Int := -6

/-- FS_ERR_NOT_DIRECTORY (fs.h). -/
def FS_ERR_NOT_DIRECTORY : Int := -7

/-- FS_ERR_CORRUPTED (fs.h). -/
def FS_ERR_CORRUPTED : Int := -9

/-- FS_ERR_INVALID_ARG (fs.h). -/
def FS_ERR_INVALID_ARG : Int := -10

/-- FS_ERR_UNSUPPORTED (fs.h). -/
def FS_ERR_UNSUPPORTED : Int := -11

/-- struct fs_superblock (fs.h): all fields, reserved tail omitted (zero). -/
structure fs_superblock where
  magic : Nat
  version : Nat
  block_size : Nat
  segment_size : Nat
  total_blocks : Nat
  total_segments : Nat
  total_inodes : Nat
  root_inode : Nat
  nat_start_block : Nat
  nat_blocks : Nat
  sit_start_block : Nat
  sit_blocks : Nat
  main_start_block : Nat
  flags : Nat
  mount_count : Nat
  last_sync_time : Nat
  creation_time : Nat
  sb_crc32 : Nat
deriving DecidableEq

/-- All-zero superblock (the image of 512 zero bytes under the packed layout). -/
def fs_superblock.zero : fs_superblock :=
  { magic := 0, version := 0, block_size := 0, segment_size := 0,
    total_blocks := 0, total_segments := 0, total_inodes := 0, root_inode := 0,
    nat_start_block := 0, nat_blocks := 0, sit_start_block := 0, sit_blocks := 0,
    main_start_block := 0, flags := 0, mount_count := 0,
    last_sync_time := 0, creation_time := 0, sb_crc32 := 0 }

/-- struct fs_nat_entry (fs.h); the explicit padding byte is always zero. -/
structure fs_nat_entry where
  block_addr : Nat
  version : Nat
  type : Nat
deriving DecidableEq

/-- All-zero NAT entry (calloc image). -/
def fs_nat_entry.zero : fs_nat_entry := { block_addr := 0, version := 0, type := 0 }

/-- NAT entry as fs_format and fs_write_nat initialize unused slots. -/
def fs_nat_entry.invalid : fs_nat_entry :=
  { block_addr := FS_INVALID_BLOCK, version := 0, type := 0 }

/-- struct fs_sit_entry (fs.h). -/
structure fs_sit_entry where
  valid_count : Nat
  flags : Nat
  age : Nat
deriving DecidableEq

/-- All-zero SIT entry (calloc image). -/
def fs_sit_entry.zero : fs_sit_entry := { valid_count := 0, flags := 0, age := 0 }

/-- struct fs_checkpoint (fs.h): all fields, reserved tail omitted (zero). -/
structure fs_checkpoint where
  checkpoint_num : Nat
  timestamp : Nat
  free_blocks : Nat
  next_node_id : Nat
  active_node_segment : Nat
  active_inode_segment : Nat
  active_data_segment : Nat
  orphan_count : Nat
  orphan_inodes : List Nat
  cp_crc32 : Nat
deriving DecidableEq

/-- All-zero checkpoint (memset image; the 32 orphan slots are zero). -/
def fs_checkpoint.zero : fs_checkpoint :=
  { checkpoint_num := 0, timestamp := 0, free_blocks := 0, next_node_id := 0,
    active_node_segment := 0, active_inode_segment := 0, active_data_segment := 0,
    orphan_count := 0, orphan_inodes := List.replicate 32 0, cp_crc32 := 0 }

/-- struct fs_inode (fs.h): all fields, reserved tail omitted (zero). -/
structure fs_inode where
  magic : Nat
  inode_version : Nat
  mode : Nat
  size : Nat
  atime : Nat
  mtime : Nat
  ctime : Nat
  link_count : Nat
  direct : List Nat
  indirect : Nat
  double_indirect : Nat
  inode_num : Nat
  parent_inode : Nat
  generation : Nat
  inode_crc32 : Nat
deriving DecidableEq

/-- All-zero inode (the image of 512 zero bytes; memset in the creation paths). -/
def fs_inode.zero : fs_inode :=
  { magic := 0, inode_version := 0, mode := 0, size := 0,
    atime := 0, mtime := 0, ctime := 0, link_count := 0,
    direct := List.replicate 10 0, indirect := 0, double_indirect := 0,
    inode_num := 0, parent_inode := 0, generation := 0, inode_crc32 := 0 }

/-- struct fs_dirent (fs.h) together with the name bytes that follow the
packed 12-byte header in the directory block. -/
structure fs_dirent where
  entry_size : Nat
  inode_num : Nat
  name_len : Nat
  type : Nat
  hash : Nat
  name : List Nat
deriving DecidableEq

/-- struct fs_file (fs.h). -/
structure fs_file where
  inode_num : Nat
  position : Nat
  flags : Nat
deriving DecidableEq

/-- Zero file handle. -/
def fs_file.zero : fs_file := { inode_num := 0, position := 0, flags := 0 }

/-- Content of one 512-byte device block, typed by the struct the filesystem
wrote there. data holds the raw byte image (file data blocks). -/
inductive Block where
  | data (bytes : List Nat)
  | sb (v : fs_superblock)
  | cp (v : fs_checkpoint)
  | natb (entries : List fs_nat_entry)
  | sitb (entries : List fs_sit_entry)
  | ino (v : fs_inode)
  | dirb (entries : List fs_dirent)
deriving DecidableEq

/-- 512 zero bytes. -/
def zeros512 : List Nat := List.replicate 512 0

/-- Block content read as raw file-data bytes. An all-zero (never written)
block reads as 512 zero bytes. -/
def Block.asData : Block → List Nat
  | .data bytes => bytes
  | _ => zeros512

/-- Block content read as a superblock; an all-zero block reads as the
all-zero record. -/
def Block.asSb : Block → fs_superblock
  | .sb v => v
  | _ => fs_superblock.zero

/-- Block content read as a checkpoint. -/
def Block.asCp : Block → fs_checkpoint
  | .cp v => v
  | _ => fs_checkpoint.zero

/-- Block content read as one NAT slice (64 entries). -/
def Block.asNat : Block → List fs_nat_entry
  | .natb entries => entries
  | _ => List.replicate 64 fs_nat_entry.zero

/-- Block content read as one SIT slice (128 entries). -/
def Block.asSit : Block → List fs_sit_entry
  | .sitb entries => entries
  | _ => List.replicate 128 fs_sit_entry.zero

/-- Block content read as an inode; an all-zero block reads as the zero
inode (whose inode_num 0 fails the load check). -/
def Block.asInode : Block → fs_inode
  | .ino v => v
  | _ => fs_inode.zero

/-- Block content read as a directory block; an all-zero block reads as the
empty entry list (the scan sees entry_size 0 at offset 0). -/
def Block.asDir : Block → List fs_dirent
  | .dirb entries => entries
  | _ => []

/-- Storage backend (fs.h fs_read_block_fn / fs_write_block_fn): function
pointers over an opaque context of type σ. read_block returns the status and
the block read; write_block returns the status and the context after the
write. The optional erase_sector is not used by any claimed code path. -/
structure fs_backend (σ : Type) where
  read_block : σ → Nat → Int × Block
  write_block : σ → Nat → Block → Int × σ

/-- struct fs (fs.h): backend, cached superblock and checkpoints, the
in-memory NAT and SIT arrays, counters and dirty flags. The model always has
a backend attached (fs_set_storage_backend was called with non-NULL function
pointers, as every caller in the repository does). -/
structure Fs (σ : Type) where
  be : fs_backend σ
  ctx : σ
  sb : fs_superblock
  cp0 : fs_checkpoint
  cp1 : fs_checkpoint
  active_cp : Nat
  nat : List fs_nat_entry
  sit : List fs_sit_entry
  free_blocks_count : Nat
  sb_dirty : Bool
  cp_dirty : Bool
  nat_dirty : Bool
  sit_dirty : Bool

/-- fs_read_block_i (fs_core.c 44-47). -/
def fs_read_block_i {σ : Type} (fs : Fs σ) (block : Nat) : Int × Block :=
  fs.be.read_block fs.ctx block

/-- fs_write_block_i (fs_core.c 49-52). -/
def fs_write_block_i {σ : Type} (fs : Fs σ) (block : Nat) (buf : Block) : Int × Fs σ :=
  let (r, ctx) := fs.be.write_block fs.ctx block buf
  (r, { fs with ctx := ctx })

/-- 32-bit decrement (the uint32 counters in the source wrap). -/
def dec32 (n : Nat) : Nat := (n + 0xFFFFFFFF) % 2 ^ 32

/-- Little-endian byte image of a 16-bit field. -/
def le16 (n : Nat) : List Nat := [n % 256, n / 256 % 256]

/-- Little-endian byte image of a 32-bit field. -/
def le32 (n : Nat) : List Nat :=
  [n % 256, n / 256 % 256, n / 65536 % 256, n / 16777216 % 256]

/-- Strictness helper: brings a Nat to literal form before the continuation
consumes it, so that long folds of arithmetic steps evaluate iteratively
during kernel reduction instead of building deep argument chains. Its value
is just k n (theorem nat_force_eq below). -/
def nat_force {α : Type} (n : Nat) (k : Nat → α) : α :=
  match n with
  | 0 => k 0
  | m + 1 => k (m + 1)

/-- fs_crc32 (fs_core.c 12-22), one bit step of the inner loop. -/
def crc32_bit (crc : Nat) : Nat :=
  let mask := if crc &&& 1 = 1 then 0xFFFFFFFF else 0
  (crc >>> 1) ^^^ (0xEDB88320 &&& mask)

/-- fs_crc32 (fs_core.c 12-22), one byte of the outer loop. -/
def crc32_byte (crc b : Nat) : Nat := crc32_bit^[8] (crc ^^^ b)

/-- The byte loop of fs_crc32, with the running crc forced at each step. -/
def fs_crc32_fold : Nat → List Nat → Nat
  | crc, [] => crc
  | crc, b :: rest => nat_force (crc32_byte crc b) (fun c => fs_crc32_fold c rest)

/-- fs_crc32 (fs_core.c 12-22) over a byte list. -/
def fs_crc32 (data : List Nat) : Nat :=
  fs_crc32_fold 0xFFFFFFFF data ^^^ 0xFFFFFFFF

/-- Byte image of a superblock under the packed little-endian layout of
fs.h (448 reserved zero bytes at the tail). -/
def fs_superblock.serialize (sb : fs_superblock) : List Nat :=
  le16 sb.magic ++ le16 sb.version ++ le16 sb.block_size ++ le16 sb.segment_size ++
  le32 sb.total_blocks ++ le32 sb.total_segments ++
  le32 sb.total_inodes ++ le32 sb.root_inode ++
  le32 sb.nat_start_block ++ le32 sb.nat_blocks ++
  le32 sb.sit_start_block ++ le32 sb.sit_blocks ++
  le32 sb.main_start_block ++ le32 sb.flags ++ le32 sb.mount_count ++
  le32 sb.last_sync_time ++ le32 sb.creation_time ++ le32 sb.sb_crc32 ++
  List.replicate 448 0

/-- Byte image of a checkpoint under the packed little-endian layout of
fs.h (348 reserved zero bytes at the tail). -/
def fs_checkpoint.serialize (cp : fs_checkpoint) : List Nat :=
  le32 cp.checkpoint_num ++ le32 cp.timestamp ++
  le32 cp.free_blocks ++ le32 cp.next_node_id ++
  le32 cp.active_node_segment ++ le32 cp.active_inode_segment ++
  le32 cp.active_data_segment ++ le32 cp.orphan_count ++
  (cp.orphan_inodes.map le32).flatten ++ le32 cp.cp_crc32 ++
  List.replicate 348 0

/-- Byte image of an inode under the packed little-endian layout of fs.h
(424 reserved zero bytes at the tail). -/
def fs_inode.serialize (i : fs_inode) : List Nat :=
  [i.magic % 256, i.inode_version % 256] ++ le16 i.mode ++ le32 i.size ++
  le32 i.atime ++ le32 i.mtime ++ le32 i.ctime ++ le16 i.link_count ++ le16 0 ++
  (i.direct.map le32).flatten ++ le32 i.indirect ++ le32 i.double_indirect ++
  le32 i.inode_num ++ le32 i.parent_inode ++ le32 i.generation ++
  le32 i.inode_crc32 ++ List.replicate 424 0

/-- fs_finalize_superblock_crc (fs_core.c 208-211). -/
def fs_finalize_superblock_crc (sb : fs_superblock) : fs_superblock :=
  let sb := { sb with sb_crc32 := 0 }
  { sb with sb_crc32 := fs_crc32 sb.serialize }

/-- fs_finalize_checkpoint_crc (fs_core.c 213-216). -/
def fs_finalize_checkpoint_crc (cp : fs_checkpoint) : fs_checkpoint :=
  let cp := { cp with cp_crc32 := 0 }
  { cp with cp_crc32 := fs_crc32 cp.serialize }

/-- Left fold over the C loops that return on the first non-OK backend
status. -/
def foldlM_fs {σ : Type} {α : Type} (f : Fs σ → α → Int × Fs σ) :
    Fs σ → List α → Int × Fs σ
  | fs, [] => (FS_OK, fs)
  | fs, a :: as =>
    let (r, fs) := f fs a
    if r = FS_OK then foldlM_fs f fs as else (r, fs)

/-- fs_write_nat (fs_core.c 57-88): writes ceil slices of 64 entries each,
padding past total_inodes with invalid entries; clears nat_dirty on success. -/
def fs_write_nat {σ : Type} (fs : Fs σ) : Int × Fs σ :=
  let (r, fs) := foldlM_fs
    (fun fs b =>
      let img := (List.range 64).map (fun i =>
        let idx := b * 64 + i
        if idx < fs.sb.total_inodes then fs.nat.getD idx fs_nat_entry.invalid
        else fs_nat_entry.invalid)
      fs_write_block_i fs (fs.sb.nat_start_block + b) (Block.natb img))
    fs (List.range fs.sb.nat_blocks)
  if r = FS_OK then (FS_OK, { fs with nat_dirty := false }) else (r, fs)

/-- fs_read_nat (fs_core.c 90-111): reads the NAT slices back into the
in-memory array, stopping at total_inodes; clears nat_dirty on success. -/
def fs_read_nat {σ : Type} (fs : Fs σ) : Int × Fs σ :=
  let (r, fs) := foldlM_fs
    (fun fs b =>
      let (r, blk) := fs_read_block_i fs (fs.sb.nat_start_block + b)
      if r ≠ FS_OK then (r, fs)
      else
        let ents := blk.asNat
        let nat := (List.range 64).foldl
          (fun nat i =>
            let idx := b * 64 + i
            if idx < fs.sb.total_inodes then nat.set idx (ents.getD i fs_nat_entry.zero)
            else nat)
          fs.nat
        (FS_OK, { fs with nat := nat }))
    fs (List.range fs.sb.nat_blocks)
  if r = FS_OK then (FS_OK, { fs with nat_dirty := false }) else (r, fs)

/-- fs_write_sit (fs_core.c 113-143): slices of 128 entries, zero padded. -/
def fs_write_sit {σ : Type} (fs : Fs σ) : Int × Fs σ :=
  let (r, fs) := foldlM_fs
    (fun fs b =>
      let img := (List.range 128).map (fun i =>
        let idx := b * 128 + i
        if idx < fs.sb.total_segments then fs.sit.getD idx fs_sit_entry.zero
        else fs_sit_entry.zero)
      fs_write_block_i fs (fs.sb.sit_start_block + b) (Block.sitb img))
    fs (List.range fs.sb.sit_blocks)
  if r = FS_OK then (FS_OK, { fs with sit_dirty := false }) else (r, fs)

/-- fs_read_sit (fs_core.c 145-166). -/
def fs_read_sit {σ : Type} (fs : Fs σ) : Int × Fs σ :=
  let (r, fs) := foldlM_fs
    (fun fs b =>
      let (r, blk) := fs_read_block_i fs (fs.sb.sit_start_block + b)
      if r ≠ FS_OK then (r, fs)
      else
        let ents := blk.asSit
        let sit := (List.range 128).foldl
          (fun sit i =>
            let idx := b * 128 + i
            if idx < fs.sb.total_segments then sit.set idx (ents.getD i fs_sit_entry.zero)
            else sit)
          fs.sit
        (FS_OK, { fs with sit := sit }))
    fs (List.range fs.sb.sit_blocks)
  if r = FS_OK then (FS_OK, { fs with sit_dirty := false }) else (r, fs)

/-- fs_mark_block_valid (fs_core.c 171-185). -/
def fs_mark_block_valid {σ : Type} (fs : Fs σ) (block_addr : Nat) : Int × Fs σ :=
  if block_addr ≥ fs.sb.total_blocks then (FS_ERR_INVALID_BLOCK, fs)
  else
    let seg := block_addr / FS_BLOCKS_PER_SEGMENT
    if seg ≥ fs.sb.total_segments then (FS_ERR_INVALID_BLOCK, fs)
    else
      let e := fs.sit.getD seg fs_sit_entry.zero
      if e.valid_count < FS_BLOCKS_PER_SEGMENT then
        (FS_OK, { fs with sit := fs.sit.set seg { e with valid_count := e.valid_count + 1 },
                          sit_dirty := true })
      else
        (FS_ERR_CORRUPTED, fs)

/-- fs_find_first_free_data_block (fs_core.c 187-203): first segment from the
main-start segment on whose valid count is below capacity AND whose candidate
block lies in the main area; the candidate is segment start plus valid count. -/
def fs_find_first_free_data_block {σ : Type} (fs : Fs σ) : Nat :=
  let s0 := fs.sb.main_start_block / FS_BLOCKS_PER_SEGMENT
  match (List.range' s0 (fs.sb.total_segments - s0)).find?
      (fun seg =>
        let vc := (fs.sit.getD seg fs_sit_entry.zero).valid_count
        decide (vc < FS_BLOCKS_PER_SEGMENT) &&
          (let blk := seg * FS_BLOCKS_PER_SEGMENT + vc
           decide (fs.sb.main_start_block ≤ blk) && decide (blk < fs.sb.total_blocks))) with
  | some seg => seg * FS_BLOCKS_PER_SEGMENT + (fs.sit.getD seg fs_sit_entry.zero).valid_count
  | none => FS_INVALID_BLOCK

/-- fs_write_superblock (fs_core.c 218-229). -/
def fs_write_superblock {σ : Type} (fs : Fs σ) : Int × Fs σ :=
  let sb := fs_finalize_superblock_crc fs.sb
  let fs := { fs with sb := sb }
  let (r, fs) := fs_write_block_i fs FS_SB_BLOCK (Block.sb sb)
  if r = FS_OK then (r, { fs with sb_dirty := false }) else (r, fs)

/-- fs_read_superblock (fs_core.c 231-252): the record is copied into fs->sb
before any validation, and the magic/version/sizes/CRC checks follow. -/
def fs_read_superblock {σ : Type} (fs : Fs σ) : Int × Fs σ :=
  let (r, blk) := fs_read_block_i fs FS_SB_BLOCK
  if r ≠ FS_OK then (r, fs)
  else
    let sb := blk.asSb
    let fs := { fs with sb := sb }
    if sb.magic ≠ FS_MAGIC then (FS_ERR_CORRUPTED, fs)
    else if sb.version ≠ FS_VERSION then (FS_ERR_CORRUPTED, fs)
    else if sb.block_size ≠ FS_BLOCK_SIZE then (FS_ERR_CORRUPTED, fs)
    else if sb.segment_size ≠ FS_SEGMENT_SIZE then (FS_ERR_CORRUPTED, fs)
    else
      let calc_v := fs_crc32 (fs_superblock.serialize { sb with sb_crc32 := 0 })
      if sb.sb_crc32 ≠ calc_v then (FS_ERR_CORRUPTED, fs)
      else (FS_OK, fs)

/-- fs_write_checkpoint_block (fs_core.c 254-269): finalizes the CRC of the
selected in-memory slot and writes it to its fixed block. -/
def fs_write_checkpoint_block {σ : Type} (fs : Fs σ) (which : Nat) : Int × Fs σ :=
  if which = 0 then
    let cp := fs_finalize_checkpoint_crc fs.cp0
    let fs := { fs with cp0 := cp }
    fs_write_block_i fs FS_CP0_BLOCK (Block.cp cp)
  else
    let cp := fs_finalize_checkpoint_crc fs.cp1
    let fs := { fs with cp1 := cp }
    fs_write_block_i fs FS_CP1_BLOCK (Block.cp cp)

/-- fs_read_checkpoint_block (fs_core.c 271-289): reads the slot and
validates its CRC over the record with the CRC field zeroed. -/
def fs_read_checkpoint_block {σ : Type} (fs : Fs σ) (which : Nat) : Int × fs_checkpoint :=
  let addr := if which = 0 then FS_CP0_BLOCK else FS_CP1_BLOCK
  let (r, blk) := fs_read_block_i fs addr
  if r ≠ FS_OK then (r, fs_checkpoint.zero)
  else
    let out := blk.asCp
    let calc_v := fs_crc32 (fs_checkpoint.serialize { out with cp_crc32 := 0 })
    if out.cp_crc32 ≠ calc_v then (FS_ERR_CORRUPTED, out)
    else (FS_OK, out)

/-- fs_div_ceil_u32 (fs.h). -/
def fs_div_ceil_u32 (a b : Nat) : Nat := (a + b - 1) / b

/-- fs_nat_blocks_for_inodes (fs.h): 64 NAT entries per block. -/
def fs_nat_blocks_for_inodes (total_inodes : Nat) : Nat := fs_div_ceil_u32 total_inodes 64

/-- fs_sit_blocks_for_segments (fs.h): 128 SIT entries per block. -/
def fs_sit_blocks_for_segments (total_segments : Nat) : Nat :=
  fs_div_ceil_u32 total_segments 128

/-- fs_format (fs_core.c 294-421). now models fs_time_now_seconds(); the
backend is preserved across the memset as in the source; the in-RAM NAT/SIT
allocations are modelled as succeeding. Returns the status and the state
after the call (partially built on the early error returns, as in C). -/
def fs_format {σ : Type} (fs : Fs σ) (total_blocks : Nat) (now : Nat) : Int × Fs σ :=
  if total_blocks < FS_FIXED_METADATA_BLOCKS + 8 then (FS_ERR_INVALID_ARG, fs)
  else
    let fs : Fs σ :=
      { be := fs.be, ctx := fs.ctx,
        sb := fs_superblock.zero, cp0 := fs_checkpoint.zero, cp1 := fs_checkpoint.zero,
        active_cp := 0, nat := [], sit := [], free_blocks_count := 0,
        sb_dirty := false, cp_dirty := false, nat_dirty := false, sit_dirty := false }
    let total_segments := fs_div_ceil_u32 total_blocks FS_BLOCKS_PER_SEGMENT
    let nat_start := FS_FIXED_METADATA_BLOCKS
    let nat_blocks := fs_nat_blocks_for_inodes FS_DEFAULT_MAX_INODES
    let sit_start := nat_start + nat_blocks
    let sit_blocks := fs_sit_blocks_for_segments total_segments
    let main_start := sit_start + sit_blocks
    let sb : fs_superblock :=
      { magic := FS_MAGIC, version := FS_VERSION,
        block_size := FS_BLOCK_SIZE, segment_size := FS_SEGMENT_SIZE,
        total_blocks := total_blocks, total_segments := total_segments,
        total_inodes := FS_DEFAULT_MAX_INODES, root_inode := FS_ROOT_INODE,
        nat_start_block := nat_start, nat_blocks := nat_blocks,
        sit_start_block := sit_start, sit_blocks := sit_blocks,
        main_start_block := main_start, flags := 0, mount_count := 0,
        last_sync_time := now, creation_time := now, sb_crc32 := 0 }
    let fs := { fs with sb := sb }
    if main_start ≥ total_blocks then (FS_ERR_NO_SPACE, fs)
    else
      let fs := { fs with
        nat := List.replicate FS_DEFAULT_MAX_INODES fs_nat_entry.invalid,
        sit := List.replicate total_segments fs_sit_entry.zero,
        cp0 := { fs_checkpoint.zero with checkpoint_num := 1, timestamp := now },
        cp1 := { fs_checkpoint.zero with checkpoint_num := 0, timestamp := now } }
      let fs := (List.range main_start).foldl (fun fs b => (fs_mark_block_valid fs b).2) fs
      let free := total_blocks - main_start
      let cp0a := { fs.cp0 with free_blocks := free, next_node_id := FS_ROOT_INODE + 1 }
      let fs := { fs with free_blocks_count := free, cp0 := cp0a }
      let root_blk := fs_find_first_free_data_block fs
      if root_blk = FS_INVALID_BLOCK then (FS_ERR_NO_SPACE, fs)
      else
        let root0 : fs_inode :=
          { magic := 0xFA, inode_version := 1, mode := FS_MODE_DIR, size := 0,
            atime := now, mtime := now, ctime := now, link_count := 2,
            direct := List.replicate 10 0, indirect := 0, double_indirect := 0,
            inode_num := FS_ROOT_INODE, parent_inode := FS_ROOT_INODE,
            generation := 1, inode_crc32 := 0 }
        let root := { root0 with inode_crc32 := fs_crc32 root0.serialize }
        let fs := (fs_mark_block_valid fs root_blk).2
        let fs := { fs with
          nat := fs.nat.set FS_ROOT_INODE { block_addr := root_blk, version := 1, type := 1 },
          nat_dirty := true }
        let (r, fs) := fs_write_block_i fs root_blk (Block.ino root)
        if r ≠ FS_OK then (r, fs)
        else
          let fs := { fs with free_blocks_count := dec32 fs.free_blocks_count }
          let fs := { fs with cp0 := { fs.cp0 with free_blocks := fs.free_blocks_count } }
          let fs := { fs with sb_dirty := true, cp_dirty := true, sit_dirty := true }
          let (r, fs) := fs_write_superblock fs
          if r ≠ FS_OK then (r, fs)
          else
            let (r, fs) := fs_write_nat fs
            if r ≠ FS_OK then (r, fs)
            else
              let (r, fs) := fs_write_sit fs
              if r ≠ FS_OK then (r, fs)
              else
                let fs := { fs with cp0 := fs_finalize_checkpoint_crc fs.cp0 }
                let (r, fs) := fs_write_checkpoint_block fs 0
                if r ≠ FS_OK then (r, fs)
                else
                  let fs := { fs with cp1 := fs_finalize_checkpoint_crc fs.cp1 }
                  let (r, fs) := fs_write_checkpoint_block fs 1
                  if r ≠ FS_OK then (r, fs)
                  else
                    (FS_OK, { fs with active_cp := 0, sb_dirty := false, cp_dirty := false,
                                      nat_dirty := false, sit_dirty := false })

/-- fs_mount (fs_core.c 423-469): validates the superblock, reallocates the
in-memory NAT/SIT zeroed, picks the valid checkpoint slot with the larger
number, reads NAT and SIT, bumps mount_count and loads the free-block count
from the active checkpoint. -/
def fs_mount {σ : Type} (fs : Fs σ) : Int × Fs σ :=
  let (r, fs) := fs_read_superblock fs
  if r ≠ FS_OK then (r, fs)
  else
    let fs := { fs with
      nat := List.replicate fs.sb.total_inodes fs_nat_entry.zero,
      sit := List.replicate fs.sb.total_segments fs_sit_entry.zero }
    let (ra, a) := fs_read_checkpoint_block fs 0
    let (rb, b) := fs_read_checkpoint_block fs 1
    if ra ≠ FS_OK ∧ rb ≠ FS_OK then (FS_ERR_CORRUPTED, fs)
    else
      let fs :=
        if ra = FS_OK ∧ rb = FS_OK then
          if a.checkpoint_num ≥ b.checkpoint_num then
            { fs with cp0 := a, cp1 := b, active_cp := 0 }
          else
            { fs with cp0 := a, cp1 := b, active_cp := 1 }
        else if ra = FS_OK then { fs with cp0 := a, active_cp := 0 }
        else { fs with cp1 := b, active_cp := 1 }
      let (r, fs) := fs_read_nat fs
      if r ≠ FS_OK then (r, fs)
      else
        let (r, fs) := fs_read_sit fs
        if r ≠ FS_OK then (r, fs)
        else
          let fs := { fs with
            sb := { fs.sb with mount_count := (fs.sb.mount_count + 1) % 2 ^ 32 },
            sb_dirty := true }
          let fs := { fs with free_blocks_count :=
            if fs.active_cp = 0 then fs.cp0.free_blocks else fs.cp1.free_blocks }
          (FS_OK, fs)

/-- fs_sync (fs_core.c 471-509): flushes dirty NAT/SIT, then rolls a
checkpoint into the inactive slot (copy of the active one with incremented
number, fresh timestamp and current free count), flips the active slot, and
rewrites the superblock with the new last_sync_time. -/
def fs_sync {σ : Type} (fs : Fs σ) (now : Nat) : Int × Fs σ :=
  let (r, fs) := if fs.nat_dirty then fs_write_nat fs else (FS_OK, fs)
  if r ≠ FS_OK then (r, fs)
  else
    let (r, fs) := if fs.sit_dirty then fs_write_sit fs else (FS_OK, fs)
    if r ≠ FS_OK then (r, fs)
    else
      let (r, fs) :=
        if fs.active_cp = 0 then
          let cp1 := { fs.cp0 with
            checkpoint_num := (fs.cp0.checkpoint_num + 1) % 2 ^ 32,
            timestamp := now, free_blocks := fs.free_blocks_count }
          let fs := { fs with cp1 := fs_finalize_checkpoint_crc cp1 }
          let (r, fs) := fs_write_checkpoint_block fs 1
          if r ≠ FS_OK then (r, fs) else (FS_OK, { fs with active_cp := 1 })
        else
          let cp0 := { fs.cp1 with
            checkpoint_num := (fs.cp1.checkpoint_num + 1) % 2 ^ 32,
            timestamp := now, free_blocks := fs.free_blocks_count }
          let fs := { fs with cp0 := fs_finalize_checkpoint_crc cp0 }
          let (r, fs) := fs_write_checkpoint_block fs 0
          if r ≠ FS_OK then (r, fs) else (FS_OK, { fs with active_cp := 0 })
      if r ≠ FS_OK then (r, fs)
      else
        let fs := { fs with sb := { fs.sb with last_sync_time := now }, sb_dirty := true }
        let (r, fs) := if fs.sb_dirty then fs_write_superblock fs else (FS_OK, fs)
        if r ≠ FS_OK then (r, fs)
        else (FS_OK, { fs with cp_dirty := false, sb_dirty := false })

/-- fs_fsck (fs_core.c 521-545); the nat-present pointer test becomes a
non-empty test on the modelled array. -/
def fs_fsck {σ : Type} (fs : Fs σ) : Int :=
  if fs.sb.magic ≠ FS_MAGIC then FS_ERR_CORRUPTED
  else if fs.sb.version ≠ FS_VERSION then FS_ERR_CORRUPTED
  else if fs.sb.block_size ≠ FS_BLOCK_SIZE then FS_ERR_CORRUPTED
  else if fs.sb.segment_size ≠ FS_SEGMENT_SIZE then FS_ERR_CORRUPTED
  else if fs.sb.nat_start_block ≠ FS_FIXED_METADATA_BLOCKS then FS_ERR_CORRUPTED
  else if fs.sb.main_start_block ≥ fs.sb.total_blocks then FS_ERR_CORRUPTED
  else
    let nat_end := fs.sb.nat_start_block + fs.sb.nat_blocks
    let sit_end := fs.sb.sit_start_block + fs.sb.sit_blocks
    if nat_end ≠ fs.sb.sit_start_block then FS_ERR_CORRUPTED
    else if sit_end ≠ fs.sb.main_start_block then FS_ERR_CORRUPTED
    else if sit_end > fs.sb.total_blocks then FS_ERR_CORRUPTED
    else if fs.nat ≠ [] then
      if FS_ROOT_INODE ≥ fs.sb.total_inodes then FS_ERR_CORRUPTED
      else if (fs.nat.getD FS_ROOT_INODE fs_nat_entry.zero).block_addr = FS_INVALID_BLOCK then
        FS_ERR_CORRUPTED
      else if (fs.nat.getD FS_ROOT_INODE fs_nat_entry.zero).block_addr <
          fs.sb.main_start_block then
        FS_ERR_CORRUPTED
      else FS_OK
    else FS_OK

/-- fs_load_inode (fs_inode.c 13-27): NAT indirection plus the inode_num
consistency check. Returns the status and the inode read (the zero inode on
the early error paths, where C leaves the out-buffer unread by callers). -/
def fs_load_inode {σ : Type} (fs : Fs σ) (ino : Nat) : Int × fs_inode :=
  if ino ≥ fs.sb.total_inodes ∨ ino = 0 then (FS_ERR_INVALID_INODE, fs_inode.zero)
  else
    let blk := (fs.nat.getD ino fs_nat_entry.zero).block_addr
    if blk = FS_INVALID_BLOCK then (FS_ERR_INVALID_INODE, fs_inode.zero)
    else
      let (r, b) := fs_read_block_i fs blk
      if r ≠ FS_OK then (r, fs_inode.zero)
      else
        let out := b.asInode
        if out.inode_num ≠ ino then (FS_ERR_CORRUPTED, out)
        else (FS_OK, out)

/-- fs_store_inode (fs_inode.c 30-54): log structured, writes the inode to a
fresh block and redirects the NAT entry, bumping its 16-bit version. -/
def fs_store_inode {σ : Type} (fs : Fs σ) (i : fs_inode) : Int × Fs σ :=
  let ino := i.inode_num
  if ino ≥ fs.sb.total_inodes ∨ ino = 0 then (FS_ERR_INVALID_INODE, fs)
  else
    let blk := fs_find_first_free_data_block fs
    if blk = FS_INVALID_BLOCK then (FS_ERR_NO_SPACE, fs)
    else
      let (r, fs) := fs_write_block_i fs blk (Block.ino i)
      if r ≠ FS_OK then (r, fs)
      else
        let fs := (fs_mark_block_valid fs blk).2
        let fs := { fs with free_blocks_count := dec32 fs.free_blocks_count }
        let e := fs.nat.getD ino fs_nat_entry.zero
        (FS_OK, { fs with
          nat := fs.nat.set ino
            { block_addr := blk, version := (e.version + 1) % 65536, type := 1 },
          nat_dirty := true })

/-- fs_bmap (fs_inode.c 57-88): direct blocks only; a direct slot holding
FS_INVALID_BLOCK or 0 counts as unmapped. Returns the status, the physical
block, the (possibly updated) inode and the (possibly updated) fs state. -/
def fs_bmap {σ : Type} (fs : Fs σ) (ino : fs_inode) (logical_block : Nat)
    (create : Bool) : Int × Nat × fs_inode × Fs σ :=
  if logical_block ≥ FS_DIRECT_BLOCKS then (FS_ERR_UNSUPPORTED, 0, ino, fs)
  else
    let blk := ino.direct.getD logical_block 0
    if blk ≠ FS_INVALID_BLOCK ∧ blk ≠ 0 then (FS_OK, blk, ino, fs)
    else if ¬ create then (FS_OK, FS_INVALID_BLOCK, ino, fs)
    else
      let nb := fs_find_first_free_data_block fs
      if nb = FS_INVALID_BLOCK then (FS_ERR_NO_SPACE, 0, ino, fs)
      else
        let ino := { ino with direct := ino.direct.set logical_block nb }
        let fs := (fs_mark_block_valid fs nb).2
        let fs := { fs with free_blocks_count := dec32 fs.free_blocks_count }
        (FS_OK, nb, ino, fs)

/-- fs_name_hash (fs_dir.c 7-14): djb2 in 32-bit arithmetic over the name
bytes (C stops at the NUL terminator; names are modelled NUL-free). -/
def fs_name_hash (name : List Nat) : Nat :=
  name.foldl (fun h c => (((h <<< 5) + h) + c) % 2 ^ 32) 5381

/-- Byte of a C string at an index: the stored byte inside the string and
the NUL terminator at its length. -/
def cstr_at (s : List Nat) (i : Nat) : Nat := s.getD i 0

/-- strncmp(a, b, n) == 0 on C strings as byte lists: compares at most n
bytes starting at index i, stopping at the first difference or a NUL. -/
def strncmp_eq (a b : List Nat) : Nat → Nat → Bool
  | _, 0 => true
  | i, n + 1 =>
    let c1 := cstr_at a i
    let c2 := cstr_at b i
    if c1 ≠ c2 then false
    else if c1 = 0 then true
    else strncmp_eq a b (i + 1) n

/-- The entry scan of fs_dir_lookup within one 512-byte block (fs_dir.c
38-55). Entries lie consecutively from the given offset; the C terminator
(entry_size 0 in the zeroed tail) is the end of the modelled list, and the
scan also stops when fewer than 12 header bytes remain before the block end. -/
def dir_block_lookup (name : List Nat) (hash : Nat) :
    List fs_dirent → Nat → Option Nat
  | [], _ => none
  | de :: rest, off =>
    if off + 12 > 512 then none
    else if de.entry_size = 0 then none
    else if de.name_len = 0 then dir_block_lookup name hash rest (off + de.entry_size)
    else if de.hash = hash ∧ de.name_len < de.entry_size ∧
        strncmp_eq de.name name 0 de.name_len ∧ cstr_at name de.name_len = 0 then
      some de.inode_num
    else dir_block_lookup name hash rest (off + de.entry_size)

/-- The block loop of fs_dir_lookup (fs_dir.c 29-56): walks logical blocks
0..blocks-1, skipping unmapped ones, propagating bmap and read errors. The
first argument counts the remaining blocks. -/
def fs_dir_lookup_blocks {σ : Type} (fs : Fs σ) (dir_ino : fs_inode)
    (name : List Nat) (hash : Nat) : Nat → Nat → Int × Nat
  | 0, _ => (FS_ERR_NOT_FOUND, 0)
  | rem + 1, lb =>
    match fs_bmap fs dir_ino lb false with
    | (r, phys, _, _) =>
      if r ≠ FS_OK then (r, 0)
      else if phys = FS_INVALID_BLOCK then
        fs_dir_lookup_blocks fs dir_ino name hash rem (lb + 1)
      else
        let (r2, blk) := fs_read_block_i fs phys
        if r2 ≠ FS_OK then (r2, 0)
        else
          match dir_block_lookup name hash blk.asDir 0 with
          | some child => (FS_OK, child)
          | none => fs_dir_lookup_blocks fs dir_ino name hash rem (lb + 1)

/-- fs_dir_lookup (fs_dir.c 17-59). Pure reader: the state is unchanged.
Returns the status and the child inode number. -/
def fs_dir_lookup {σ : Type} (fs : Fs σ) (dir_ino : fs_inode) (name : List Nat) :
    Int × Nat :=
  if dir_ino.mode &&& FS_MODE_DIR = 0 then (FS_ERR_NOT_DIRECTORY, 0)
  else
    let hash := fs_name_hash name
    let blocks := (dir_ino.size + FS_BLOCK_SIZE - 1) / FS_BLOCK_SIZE
    fs_dir_lookup_blocks fs dir_ino name hash blocks 0

/-- Four-byte alignment of a dirent record length (fs_dir.c 76-77, 115-116):
(x + 3) & ~3 in 16-bit arithmetic when x is unaligned. -/
def align4 (n : Nat) : Nat := if n &&& 3 ≠ 0 then (n + 3) &&& 0xFFFC else n

/-- The entry scan of fs_dir_add within one block (fs_dir.c 96-134): either
append into the zero tail space (entry_size = all remaining bytes), or split
the first entry whose slack past its aligned used size fits the record,
returning the updated entry list; none when the block has no room. -/
def dir_block_insert (name : List Nat) (name_len child_ino dtype hash rec_len : Nat) :
    List fs_dirent → Nat → Option (List fs_dirent)
  | [], off =>
    if off + 12 > 512 then none
    else
      let remaining := 512 - off
      if remaining < rec_len then none
      else some [{ entry_size := remaining, inode_num := child_ino, name_len := name_len,
                   type := dtype, hash := hash, name := name }]
  | de :: rest, off =>
    if off + 12 > 512 then none
    else if de.entry_size = 0 then
      let remaining := 512 - off
      if remaining < rec_len then none
      else some [{ entry_size := remaining, inode_num := child_ino, name_len := name_len,
                   type := dtype, hash := hash, name := name }]
    else
      let used := align4 (12 + de.name_len)
      if de.entry_size > used ∧ de.entry_size - used ≥ rec_len then
        some ({ de with entry_size := used } ::
              { entry_size := de.entry_size - used, inode_num := child_ino,
                name_len := name_len, type := dtype, hash := hash, name := name } :: rest)
      else
        match dir_block_insert name name_len child_ino dtype hash rec_len rest
            (off + de.entry_size) with
        | some tail => some (de :: tail)
        | none => none

/-- The unbounded block loop of fs_dir_add (fs_dir.c 82-139). Logical blocks
are tried in order; a full block bumps file_blocks to lb + 1 and continues,
so the next block is treated as fresh (memset). The loop always exits by
lb = 10 at the latest, where fs_bmap returns Unsupported; the fuel argument
(11 at the top call) is therefore never exhausted, and its fallback value is
unreachable. Returns the status, the inode and state as updated by bmap, and
on success the inserted-into block image to be written back. -/
def fs_dir_add_loop {σ : Type} (name : List Nat)
    (name_len child_ino dtype hash rec_len : Nat) :
    Nat → Fs σ → fs_inode → Nat → Nat → Int × fs_inode × Fs σ × List fs_dirent
  | 0, fs, ino, _, _ => (FS_ERR_UNSUPPORTED, ino, fs, [])
  | fuel + 1, fs, ino, lb, file_blocks =>
    match fs_bmap fs ino lb true with
    | (r, phys, ino, fs) =>
      if r ≠ FS_OK then (r, ino, fs, [])
      else if phys = FS_INVALID_BLOCK then (FS_ERR_NO_SPACE, ino, fs, [])
      else
        let (r2, entries) :=
          if lb ≥ file_blocks then (FS_OK, ([] : List fs_dirent))
          else
            let (r2, blk) := fs_read_block_i fs phys
            (r2, blk.asDir)
        if r2 ≠ FS_OK then (r2, ino, fs, [])
        else
          match dir_block_insert name name_len child_ino dtype hash rec_len entries 0 with
          | some buf => (FS_OK, ino, fs, buf)
          | none => fs_dir_add_loop name name_len child_ino dtype hash rec_len
              fuel fs ino (lb + 1) (lb + 1)

/-- fs_dir_add (fs_dir.c 62-171). After the insertion loop, the write_out
block recomputes the directory size FROM THE OLD size (rounding it up to
whole blocks, with a minimum of one block) and writes the modified buffer to
the physical block of the LAST logical block of that size. name_len is the
uint8 cast of strlen(name). Returns the status, the updated directory inode
(the caller holds it by pointer) and the state after the call. -/
def fs_dir_add {σ : Type} (fs : Fs σ) (dir_ino : fs_inode) (name : List Nat)
    (child_ino : Nat) (dtype : Nat) : Int × fs_inode × Fs σ :=
  if dir_ino.mode &&& FS_MODE_DIR = 0 then (FS_ERR_NOT_DIRECTORY, dir_ino, fs)
  else
    let name_len := name.length % 256
    if name_len = 0 then (FS_ERR_INVALID_ARG, dir_ino, fs)
    else
      let hash := fs_name_hash name
      let rec_len := align4 (12 + name_len)
      let file_blocks := (dir_ino.size + FS_BLOCK_SIZE - 1) / FS_BLOCK_SIZE
      match fs_dir_add_loop name name_len child_ino dtype hash rec_len
          11 fs dir_ino 0 file_blocks with
      | (r, ino, fs, buf) =>
        if r ≠ FS_OK then (r, ino, fs)
        else
          let new_size := ((ino.size + FS_BLOCK_SIZE - 1) / FS_BLOCK_SIZE) * FS_BLOCK_SIZE
          let new_size := if new_size = 0 then FS_BLOCK_SIZE else new_size
          let ino := if new_size > ino.size then { ino with size := new_size } else ino
          let cur_blocks := (ino.size + FS_BLOCK_SIZE - 1) / FS_BLOCK_SIZE
          let last_lb := if cur_blocks = 0 then 0 else cur_blocks - 1
          match fs_bmap fs ino last_lb false with
          | (r2, last_phys, ino, fs) =>
            if r2 ≠ FS_OK ∨ last_phys = FS_INVALID_BLOCK then (FS_ERR_CORRUPTED, ino, fs)
            else
              let (r3, fs) := fs_write_block_i fs last_phys (Block.dirb buf)
              if r3 ≠ FS_OK then (r3, ino, fs)
              else (FS_OK, ino, fs)

/-- next_component (fs_file.c 29-40): skip leading slashes, copy at most 63
bytes of the component, skip trailing slashes; none at the end of the path.
Paths are byte lists without NUL bytes. -/
def next_component (p : List Nat) : Option (List Nat × List Nat) :=
  let p := p.dropWhile (fun c => c == 47)
  if p = [] then none
  else
    let comp := (p.takeWhile (fun c => c != 47)).take 63
    let rest := (p.drop comp.length).dropWhile (fun c => c == 47)
    some (comp, rest)

/-- The resolution loop of fs_resolve_path (fs_file.c 69-98). parent is set
to the current inode before each lookup; any lookup failure is reported as
NotFound with the failing component as last_name. The fuel (path length + 1
at the top call) strictly bounds the number of components and is never
exhausted. Returns (status, ino_out, parent_out, last_name). -/
def fs_resolve_path_loop {σ : Type} (fs : Fs σ) :
    Nat → fs_inode → Nat → List Nat → List Nat → Int × Nat × Nat × List Nat
  | 0, _, _, _, _ => (FS_ERR_INVALID_ARG, 0, 0, [])
  | fuel + 1, cur, cur_ino, comp, rest =>
    let parent_ino := cur_ino
    match fs_dir_lookup fs cur comp with
    | (r, child) =>
      if r ≠ FS_OK then (FS_ERR_NOT_FOUND, FS_INVALID_INODE, parent_ino, comp)
      else
        match fs_load_inode fs child with
        | (r2, cur) =>
          if r2 ≠ FS_OK then (r2, 0, 0, [])
          else
            match next_component rest with
            | none => (FS_OK, child, parent_ino, [])
            | some (comp2, rest2) =>
              fs_resolve_path_loop fs fuel cur child comp2 rest2

/-- fs_resolve_path (fs_file.c 43-99). Returns (status, ino_out, parent_out,
last_name). -/
def fs_resolve_path {σ : Type} (fs : Fs σ) (path : List Nat) :
    Int × Nat × Nat × List Nat :=
  if path.getD 0 0 ≠ 47 then (FS_ERR_INVALID_ARG, 0, 0, [])
  else
    match fs_load_inode fs FS_ROOT_INODE with
    | (r, cur) =>
      if r ≠ FS_OK then (r, 0, 0, [])
      else
        match next_component path with
        | none => (FS_OK, FS_ROOT_INODE, FS_ROOT_INODE, [])
        | some (comp, rest) =>
          fs_resolve_path_loop fs (path.length + 1) cur FS_ROOT_INODE comp rest

/-- fs_open (fs_file.c 103-167): resolve, and on NotFound with O_CREAT
create a fresh regular inode (first NAT slot from 1 on with an invalid block
address), store it log-structured, add the dirent to the parent and store the
updated parent. Returns the status, the handle and the state after the call. -/
def fs_open {σ : Type} (fs : Fs σ) (path : List Nat) (flags : Nat) :
    Int × fs_file × Fs σ :=
  match fs_resolve_path fs path with
  | (r, ino, parent, name) =>
    if r = FS_ERR_NOT_FOUND ∧ flags &&& FS_O_CREAT ≠ 0 then
      if parent = FS_INVALID_INODE then (FS_ERR_INVALID_ARG, fs_file.zero, fs)
      else
        match fs_load_inode fs parent with
        | (r2, parent_ino) =>
          if r2 ≠ FS_OK then (r2, fs_file.zero, fs)
          else if parent_ino.mode &&& FS_MODE_DIR = 0 then
            (FS_ERR_NOT_DIRECTORY, fs_file.zero, fs)
          else
            match (List.range' 1 (fs.sb.total_inodes - 1)).find?
                (fun i => (fs.nat.getD i fs_nat_entry.zero).block_addr == FS_INVALID_BLOCK) with
            | none => (FS_ERR_NO_SPACE, fs_file.zero, fs)
            | some new_ino =>
              let newi : fs_inode :=
                { magic := 0xFA, inode_version := 1, mode := FS_MODE_REG, size := 0,
                  atime := 0, mtime := 0, ctime := 0, link_count := 1,
                  direct := List.replicate 10 FS_INVALID_BLOCK,
                  indirect := FS_INVALID_BLOCK, double_indirect := FS_INVALID_BLOCK,
                  inode_num := new_ino, parent_inode := parent,
                  generation := 1, inode_crc32 := 0 }
              let (r3, fs) := fs_store_inode fs newi
              if r3 ≠ FS_OK then (r3, fs_file.zero, fs)
              else
                match fs_dir_add fs parent_ino name new_ino 1 with
                | (r4, parent_ino, fs) =>
                  if r4 ≠ FS_OK then (r4, fs_file.zero, fs)
                  else
                    let parent_ino := { parent_ino with mtime := 0, ctime := 0 }
                    let (r5, fs) := fs_store_inode fs parent_ino
                    if r5 ≠ FS_OK then (r5, fs_file.zero, fs)
                    else
                      (FS_OK, { inode_num := new_ino, position := 0, flags := flags }, fs)
    else if r ≠ FS_OK then (r, fs_file.zero, fs)
    else (FS_OK, { inode_num := ino, position := 0, flags := flags }, fs)

/-- fs_close (fs_file.c 169-173): no-op. -/
def fs_close {σ : Type} (fs : Fs σ) (fd : fs_file) : Int × Fs σ := (FS_OK, fs)

/-- The transfer loop of fs_read (fs_file.c 190-209): copies chunk after
chunk, filling zeros for unmapped blocks, stopping with the error status on
a bmap or backend failure. Returns the status, the bytes copied so far (the
caller buffer prefix) and the final done counter. Every iteration copies at
least one byte, so with the fuel count passed at the top call the fuel-zero
fallback (which returns exactly what the loop guard would) is reached only
when done has already caught up with count. -/
def fs_read_loop {σ : Type} (fs : Fs σ) (ino : fs_inode) (pos count : Nat) :
    Nat → Nat → List Nat → Int × List Nat × Nat
  | 0, done, acc => (FS_OK, acc, done)
  | fuel + 1, done, acc =>
    if done < count then
      let off_in_file := pos + done
      let lb := off_in_file / FS_BLOCK_SIZE
      let off_in_block := off_in_file % FS_BLOCK_SIZE
      let chunk := min (FS_BLOCK_SIZE - off_in_block) (count - done)
      match fs_bmap fs ino lb false with
      | (r, phys, _, _) =>
        if r ≠ FS_OK then (r, acc, done)
        else if phys = FS_INVALID_BLOCK then
          fs_read_loop fs ino pos count fuel (done + chunk) (acc ++ List.replicate chunk 0)
        else
          let (r2, blk) := fs_read_block_i fs phys
          if r2 ≠ FS_OK then (r2, acc, done)
          else
            fs_read_loop fs ino pos count fuel (done + chunk)
              (acc ++ (blk.asData.drop off_in_block).take chunk)
    else
      (FS_OK, acc, done)

/-- fs_read (fs_file.c 175-213): load the inode, return 0 at or past EOF,
clip the count to the remaining size, run the transfer loop, and advance the
position by the completed byte count only when the whole clipped transfer
succeeded. Returns the C int result (bytes read or negative error), the bytes
copied into the caller buffer, and the handle after the call. -/
def fs_read {σ : Type} (fs : Fs σ) (fd : fs_file) (count : Nat) :
    Int × List Nat × fs_file :=
  match fs_load_inode fs fd.inode_num with
  | (r, ino) =>
    if r ≠ FS_OK then (r, [], fd)
    else if fd.position ≥ ino.size then (0, [], fd)
    else
      let remaining := ino.size - fd.position
      let count := if count > remaining then remaining else count
      match fs_read_loop fs ino fd.position count count 0 [] with
      | (r2, acc, done) =>
        if r2 ≠ FS_OK then (r2, acc, fd)
        else (Int.ofNat done, acc, { fd with position := fd.position + done })

/-- The transfer loop of fs_write (fs_file.c 225-248): maps each logical
block with create = true, reads-modifies-writes partial blocks (a full-block
chunk overwrites the buffer wholesale, so the read is skipped), and stops
with the error status on any failure. Returns the status, the inode and
state as updated, and the done counter. As in fs_read_loop, the fuel (count
at the top call) is never exhausted before the guard exits. -/
def fs_write_loop {σ : Type} (data : List Nat) (pos count : Nat) :
    Nat → Fs σ → fs_inode → Nat → Int × fs_inode × Fs σ × Nat
  | 0, fs, ino, done => (FS_OK, ino, fs, done)
  | fuel + 1, fs, ino, done =>
    if done < count then
      let off_in_file := pos + done
      let lb := off_in_file / FS_BLOCK_SIZE
      let off_in_block := off_in_file % FS_BLOCK_SIZE
      let chunk := min (FS_BLOCK_SIZE - off_in_block) (count - done)
      match fs_bmap fs ino lb true with
      | (r, phys, ino, fs) =>
        if r ≠ FS_OK then (r, ino, fs, done)
        else if phys = FS_INVALID_BLOCK then (FS_ERR_CORRUPTED, ino, fs, done)
        else if chunk ≠ FS_BLOCK_SIZE then
          let (r2, blk) := fs_read_block_i fs phys
          if r2 ≠ FS_OK then (r2, ino, fs, done)
          else
            let bytes := blk.asData
            let buf := bytes.take off_in_block ++ (data.drop done).take chunk ++
              bytes.drop (off_in_block + chunk)
            let (r3, fs) := fs_write_block_i fs phys (Block.data buf)
            if r3 ≠ FS_OK then (r3, ino, fs, done)
            else fs_write_loop data pos count fuel fs ino (done + chunk)
        else
          let buf := (data.drop done).take FS_BLOCK_SIZE
          let (r3, fs) := fs_write_block_i fs phys (Block.data buf)
          if r3 ≠ FS_OK then (r3, ino, fs, done)
          else fs_write_loop data pos count fuel fs ino (done + chunk)
    else
      (FS_OK, ino, fs, done)

/-- fs_write (fs_file.c 215-258): load the inode, run the transfer loop,
advance the position, grow the size when the position passed it, and store
the inode log-structured. data carries the caller buffer; count is its byte
count as in the C call. Returns the C int result (bytes written or negative
error), the handle and the state after the call. -/
def fs_write {σ : Type} (fs : Fs σ) (fd : fs_file) (data : List Nat) (count : Nat) :
    Int × fs_file × Fs σ :=
  match fs_load_inode fs fd.inode_num with
  | (r, ino) =>
    if r ≠ FS_OK then (r, fd, fs)
    else
      match fs_write_loop data fd.position count count fs ino 0 with
      | (r2, ino, fs, done) =>
        if r2 ≠ FS_OK then (r2, fd, fs)
        else
          let fd := { fd with position := fd.position + done }
          let ino := if fd.position > ino.size then { ino with size := fd.position } else ino
          let ino := { ino with mtime := 0, ctime := 0 }
          let (r3, fs) := fs_store_inode fs ino
          if r3 ≠ FS_OK then (r3, fd, fs)
          else (Int.ofNat done, fd, fs)

/-- Functional RAM-disk backend: reads and writes always succeed; the
context is the total map from block address to content. -/
def ram_backend : fs_backend (Nat → Block) :=
  { read_block := fun d b => (FS_OK, d b),
    write_block := fun d b v => (FS_OK, Function.update d b v) }

/-- A fresh (all-zero) device. -/
def fresh_disk : Nat → Block := fun _ => Block.data zeros512

/-- An fs struct with the RAM backend attached to the given device and all
cached state zeroed, as after fs_set_storage_backend on a zeroed struct. -/
def mk_ram_fs (d : Nat → Block) : Fs (Nat → Block) :=
  { be := ram_backend, ctx := d,
    sb := fs_superblock.zero, cp0 := fs_checkpoint.zero, cp1 := fs_checkpoint.zero,
    active_cp := 0, nat := [], sit := [], free_blocks_count := 0,
    sb_dirty := false, cp_dirty := false, nat_dirty := false, sit_dirty := false }

/-! ## Concrete states and traces used by the theorems -/

/-- Ready task descriptor with the given id and priority, pinned to core 0;
used to build the concrete scheduler states below. -/
def mk_ready_task (id : Nat) (pr : task_priority_t) : task_descriptor_t :=
  { task_id := id, name := [], state := .ready, priority := pr, core_affinity := 0,
    entry_func := 1, arg := 0,
    sec_ctx := { uid := 0, gid := 0, euid := 0, egid := 0, umask := 0, capabilities := 0 },
    stack_base := 0x20030000, stack_size := LITTLEOS_TASK_STACK_SIZE,
    memory_allocated := 0, memory_peak := 0,
    created_at_ms := 0, total_runtime_ms := 0, context_switches := 0 }

/-- Scheduler state of spec scenario S4: three Ready tasks with priorities
Low, Normal, High on the core-0 queue. -/
def C4_s4_state : sched_state_t :=
  { sched_init with
      task_table := [mk_ready_task 1 .low, mk_ready_task 2 .normal, mk_ready_task 3 .high],
      core0_queue := [1, 2, 3] }

/-- Scheduler state whose core-0 queue holds a single Ready Low-priority task. -/
def C4_low_only_state : sched_state_t :=
  { sched_init with
      task_table := [mk_ready_task 1 .low],
      core0_queue := [1] }

/-- C8 trace, step 1: fifteen creations on core 0 from the initial scheduler
state. The counter path hands out ids 1..15 and leaves next_id = 16. -/
def C8_after_fifteen : sched_state_t :=
  (List.range 15).foldl (fun s _ => (task_create s [65] 1 0 .normal 0 1000 0).2) sched_init

/-- C8 trace, step 2: a sixteenth creation. The table is nearly full
(15 ≥ LITTLEOS_MAX_TASKS - 1), so the search path hands out id 16 WITHOUT
advancing next_id, which stays 16. -/
def C8_after_search16 : sched_state_t :=
  (task_create C8_after_fifteen [66] 1 0 .normal 0 1000 0).2

/-- C8 trace, step 3: terminate task 1 (table shrinks to 15 entries). -/
def C8_after_free1 : sched_state_t := (task_terminate C8_after_search16 1).2

/-- C8 trace, step 4: another creation; the search path hands out id 1 again. -/
def C8_after_search1 : sched_state_t :=
  (task_create C8_after_free1 [67] 1 0 .normal 0 1000 0).2

/-- C8 trace, step 5: terminate tasks 2 and 3 (table shrinks to 14 entries,
below the nearly-full threshold). -/
def C8_after_free23 : sched_state_t :=
  (task_terminate (task_terminate C8_after_search1 2).2 3).2

/-- C8 trace, step 6: the final creation takes the counter path and returns
id = next_id = 16, although a live task created by the search path already
carries id 16. -/
def C8_final : Nat × sched_state_t := task_create C8_after_free23 [68] 1 0 .normal 0 1000 0

/-- Security context of spec scenario S5: plain user, uid = euid = 1000,
gid = egid = 100 (GID_USERS). -/
def S5_user_ctx : task_sec_ctx_t :=
  { uid := 1000, gid := 100, euid := 1000, egid := 100, umask := 0o22, capabilities := 0 }

/-- Root-owned mode-0600 resource of spec scenario S5. -/
def S5_root_0600 : resource_perm_t :=
  { perms := 0o600, owner_uid := 0, owner_gid := 0, rtype := 2, flags := 0 }

/-- Root-owned mode-0644 resource of spec scenario S5. -/
def S5_root_0644 : resource_perm_t :=
  { perms := 0o644, owner_uid := 0, owner_gid := 0, rtype := 2, flags := 0 }

/-- Resource owned by uid 1000 with mode 0400 (owner may only read); the
input on which overlap and inclusion semantics of perm_check disagree for a
Read+Write request. -/
def C7_owner_0400 : resource_perm_t :=
  { perms := 0o400, owner_uid := 1000, owner_gid := 100, rtype := 2, flags := 0 }

/-- Context whose REAL uid is 1000 but whose EFFECTIVE uid is 5; used to
separate the real-uid test of perm_chmod from the effective-uid test the
claim states. -/
def C9_euid5_ctx : task_sec_ctx_t :=
  { uid := 1000, gid := 100, euid := 5, egid := 100, umask := 0o22, capabilities := 0 }

/-- Resource owned by uid 5 with mode 0600. -/
def C9_owner5_res : resource_perm_t :=
  { perms := 0o600, owner_uid := 5, owner_gid := 100, rtype := 2, flags := 0 }

/-- Path "/a" as bytes. -/
def C1_a_path : List Nat := [47, 97]

/-- C1 trace: freshly formatted 64-block device (creation time 0). -/
def C1_s0 : Fs (Nat → Block) := (fs_format (mk_ram_fs fresh_disk) 64 0).2

/-- C1 trace: open "/a" with O_WRONLY|O_CREAT on the fresh filesystem. -/
def C1_o1 : Int × fs_file × Fs (Nat → Block) :=
  fs_open C1_s0 C1_a_path (FS_O_WRONLY + FS_O_CREAT)

/-- C1 trace: write the pre-sync content [1, 2, 3] to "/a". -/
def C1_w1 : Int × fs_file × Fs (Nat → Block) := fs_write C1_o1.2.2 C1_o1.2.1 [1, 2, 3] 3

/-- C1 trace: sync (the commit point), at time 5. -/
def C1_y1 : Int × Fs (Nat → Block) := fs_sync C1_w1.2.2 5

/-- C1 trace: reopen "/a" after the sync. -/
def C1_o2 : Int × fs_file × Fs (Nat → Block) := fs_open C1_y1.2 C1_a_path FS_O_WRONLY

/-- C1 trace: post-sync overwrite of "/a" with [9, 9, 9], no further sync.
fs_bmap returns the existing direct block, so the data block holding the
pre-sync bytes is rewritten in place on the device. -/
def C1_w2 : Int × fs_file × Fs (Nat → Block) := fs_write C1_y1.2 C1_o2.2.1 [9, 9, 9] 3

/-- C1 trace: power loss: all in-memory state is discarded and the device
(the backend context, untouched by the crash) is remounted. -/
def C1_m2 : Int × Fs (Nat → Block) := fs_mount (mk_ram_fs C1_w2.2.2.ctx)

/-- C1 trace: reopen "/a" read-only after the remount. -/
def C1_o3 : Int × fs_file × Fs (Nat → Block) := fs_open C1_m2.2 C1_a_path FS_O_RDONLY

/-- C1 trace: read 3 bytes of "/a" after the remount. -/
def C1_r3 : Int × List Nat × fs_file := fs_read C1_m2.2 C1_o3.2.1 3

/-- C5 names: nineteen pairwise distinct 16-byte names; each occupies an
aligned 28-byte directory record, so eighteen of them exactly exhaust one
512-byte directory block. -/
def C5_name (i : Nat) : List Nat := (65 + i) :: List.replicate 15 66

/-- C5 fold step: one fs_dir_add of name i with child inode i + 3, threading
the directory inode and the filesystem state and recording the status. -/
def C5_step (st : List Int × fs_inode × Fs (Nat → Block)) (i : Nat) :
    List Int × fs_inode × Fs (Nat → Block) :=
  let r := fs_dir_add st.2.2 st.2.1 (C5_name i) (i + 3) 1
  (st.1 ++ [r.1], r.2.1, r.2.2)

/-- C5 trace: fresh 64-block filesystem. -/
def C5_s0 : Fs (Nat → Block) := (fs_format (mk_ram_fs fresh_disk) 64 0).2

/-- C5 trace: the root directory inode as loaded. -/
def C5_root : fs_inode := (fs_load_inode C5_s0 FS_ROOT_INODE).2

/-- C5 trace: nineteen successive fs_dir_add calls on the root directory.
The first eighteen fill directory block 0; the nineteenth spills into a
fresh block, after which the write_out path of fs_dir_add recomputes the
size from the stale value and writes the new block image over block 0. -/
def C5_trace : List Int × fs_inode × Fs (Nat → Block) :=
  (List.range 19).foldl C5_step ([], C5_root, C5_s0)

/-- Initial (all-disabled) watchdog state, as the C static initializer builds it. -/
def wdt_state_init : wdt_state_t :=
  { enabled := false, timeout_ms := 0, feed_count := 0, last_feed_time_ms := 0,
    last_reset_reason := WATCHDOG_RESET_NONE }

/-- C10 witness inode: a 1024-byte regular file whose two mapped blocks are
20 and 21. -/
def C10_ino : fs_inode :=
  { magic := 0xFA, inode_version := 1, mode := FS_MODE_REG, size := 1024,
    atime := 0, mtime := 0, ctime := 0, link_count := 1,
    direct := [20, 21] ++ List.replicate 8 FS_INVALID_BLOCK,
    indirect := FS_INVALID_BLOCK, double_indirect := FS_INVALID_BLOCK,
    inode_num := 1, parent_inode := FS_ROOT_INODE, generation := 1, inode_crc32 := 0 }

/-- C10 witness backend: block 5 holds the inode, block 20 reads fine, and
block 21 fails with an I/O error, so a 1024-byte read fails after 512 bytes
were already copied. -/
def C10_be : fs_backend Unit :=
  { read_block := fun _ b =>
      if b = 5 then (FS_OK, Block.ino C10_ino)
      else if b = 21 then ( FS_ERR_IO, Block.data zeros512)
      else (FS_OK, Block.data zeros512),
    write_block := fun u _ _ => (FS_OK, u) }

/-- C10 witness filesystem state over that backend. -/
def C10_fs : Fs Unit :=
  { be := C10_be, ctx := (),
    sb := { fs_superblock.zero with total_inodes := 256 },
    cp0 := fs_checkpoint.zero, cp1 := fs_checkpoint.zero, active_cp := 0,
    nat := (List.replicate 256 fs_nat_entry.invalid).set 1
      { block_addr := 5, version := 1, type := 1 },
    sit := [], free_blocks_count := 0,
    sb_dirty := false, cp_dirty := false, nat_dirty := false, sit_dirty := false }

/-- C10 witness handle: the file open at position 0. -/
def C10_fd : fs_file := { inode_num := 1, position := 0, flags := 0 }


/-- C2 path "/hello" as bytes. -/
def C2_path : List Nat := [47, 104, 101, 108, 108, 111]

/-- The name component "hello". -/
def C2_name : List Nat := [104, 101, 108, 108, 111]

/-- Freshly formatted (64 blocks) and mounted filesystem. -/
def C2_s0 : Fs (Nat → Block) := (fs_mount (fs_format (mk_ram_fs fresh_disk) 64 0).2).2

/-- FS_O_WRONLY | FS_O_CREAT | FS_O_TRUNC. -/
def C2_flags : Nat := 25

/-- State after the creating open. -/
def C2_s1 : Fs (Nat → Block) := (fs_open C2_s0 C2_path C2_flags).2.2

/-- Handle returned by the creating open. -/
def C2_fd1 : fs_file := (fs_open C2_s0 C2_path C2_flags).2.1

/-- Superblock of C2_s1 as a literal. -/
def C2_SB : fs_superblock :=
  { magic := 62206, version := 1, block_size := 512, segment_size := 4096,
    total_blocks := 64, total_segments := 8, total_inodes := 256, root_inode := 2,
    nat_start_block := 3, nat_blocks := 4, sit_start_block := 7, sit_blocks := 1,
    main_start_block := 8, flags := 0, mount_count := 1, last_sync_time := 0,
    creation_time := 0, sb_crc32 := 2644207931 }

/-- Checkpoint slot 0 of C2_s1 as a literal. -/
def C2_CP0 : fs_checkpoint :=
  { checkpoint_num := 1, timestamp := 0, free_blocks := 55, next_node_id := 3,
    active_node_segment := 0, active_inode_segment := 0, active_data_segment := 0,
    orphan_count := 0, orphan_inodes := List.replicate 32 0, cp_crc32 := 3973558583 }

/-- Checkpoint slot 1 of C2_s1 as a literal. -/
def C2_CP1 : fs_checkpoint := { fs_checkpoint.zero with cp_crc32 := 2997515640 }

/-- SIT array after a total of 8 + a sequential main-area allocations: segment
0 is the full metadata segment and allocation proceeds block by block from
segment 1 on. -/
def C2_sit (a : Nat) : List fs_sit_entry :=
  { valid_count := 8, flags := 0, age := 0 } ::
    (List.range 7).map (fun s => { valid_count := min 8 (a - 8 * s), flags := 0, age := 0 })

/-- NAT array of C2_s1: inode 1 (the new file) at block 9, the root at 11. -/
def C2_nat1 : List fs_nat_entry :=
  ((List.replicate 256 fs_nat_entry.invalid).set 1
      { block_addr := 9, version := 1, type := 1 }).set 2
    { block_addr := 11, version := 2, type := 1 }

/-- The family of states the write phase moves through: only the device
image, the NAT, the SIT and the free-block counter change. -/
def C2_mkfs (d : Nat → Block) (natl : List fs_nat_entry) (sitl : List fs_sit_entry)
    (fbc : Nat) : Fs (Nat → Block) :=
  { be := ram_backend, ctx := d, sb := C2_SB, cp0 := C2_CP0, cp1 := C2_CP1,
    active_cp := 0, nat := natl, sit := sitl, free_blocks_count := fbc,
    sb_dirty := true, cp_dirty := false, nat_dirty := true, sit_dirty := true }

/-- The freshly created (empty) inode 1 as stored at block 9. -/
def C2_newi : fs_inode :=
  { magic := 250, inode_version := 1, mode := FS_MODE_REG, size := 0,
    atime := 0, mtime := 0, ctime := 0, link_count := 1,
    direct := List.replicate 10 FS_INVALID_BLOCK,
    indirect := FS_INVALID_BLOCK, double_indirect := FS_INVALID_BLOCK,
    inode_num := 1, parent_inode := 2, generation := 1, inode_crc32 := 0 }

/-- The root inode version stored at block 11 (size 512, first data block 10). -/
def C2_root2 : fs_inode :=
  { magic := 250, inode_version := 1, mode := 16384, size := 512,
    atime := 0, mtime := 0, ctime := 0, link_count := 2,
    direct := [10, 0, 0, 0, 0, 0, 0, 0, 0, 0], indirect := 0, double_indirect := 0,
    inode_num := 2, parent_inode := 2, generation := 1, inode_crc32 := 567874217 }

/-- The root directory block (block 10): one entry for "hello" -> inode 1. -/
def C2_dirents : List fs_dirent :=
  [{ entry_size := 512, inode_num := 1, name_len := 5, type := 1,
     hash := 261238937, name := C2_name }]

/-- Direct table of the file inode after the first j data blocks (12, 13, ...)
have been mapped. -/
def C2_direct (j : Nat) : List Nat :=
  (List.range 10).map (fun i => if i < j then 12 + i else FS_INVALID_BLOCK)

/-- Number of data blocks holding an n-byte file. -/
def C2_K (n : Nat) : Nat := (n + 511) / 512

/-- Chunk size of block i of an n-byte transfer starting at position 0. -/
def C2_clen (n i : Nat) : Nat := min 512 (n - 512 * i)

/-- The file inode as stored after writing the data. -/
def C2_ino2 (data : List Nat) : fs_inode :=
  { C2_newi with direct := C2_direct (C2_K data.length), size := data.length }

/-- NAT array after the write: inode 1 now lives at block 12 + K. -/
def C2_natK (data : List Nat) : List fs_nat_entry :=
  C2_nat1.set 1 { block_addr := 12 + C2_K data.length, version := 2, type := 1 }

/-- Result of writing the whole buffer. -/
def C2_w (data : List Nat) : Int × fs_file × Fs (Nat → Block) :=
  fs_write C2_s1 C2_fd1 data data.length

/-- State after the (no-op) close of the written file. -/
def C2_s2 (data : List Nat) : Fs (Nat → Block) :=
  (fs_close (C2_w data).2.2 (C2_w data).2.1).2

/-- Result of reopening the file read-only. -/
def C2_o2 (data : List Nat) : Int × fs_file × Fs (Nat → Block) :=
  fs_open (C2_s2 data) C2_path FS_O_RDONLY

/-- Result of reading the file back. -/
def C2_r (data : List Nat) : Int × List Nat × fs_file :=
  fs_read (C2_s2 data) (C2_o2 data).2.1 data.length

/-! ## Theorems -/

set_option maxRecDepth 8000

set_option maxHeartbeats 2000000

/-- Helper for C4: the selection scan of scheduler_next_task_core0 never
leaves its initial accumulator, because the unsigned sentinel 4294967295 is
strictly greater than every priority value (0..3). -/
theorem scheduler_scan_stays_at_sentinel (table : List task_descriptor_t) (q : List Nat) :
    q.foldl
      (fun (acc : Nat × Nat) task_id =>
        match find_task table task_id with
        | some task =>
          if (task.state = task_state_t.ready ∨ task.state = task_state_t.running) ∧
              task.priority.toNat > acc.1 then
            (task.priority.toNat, task_id)
          else acc
        | none => acc)
      (4294967295, 0) = (4294967295, 0) := by
  induction q with
  | nil => rfl
  | cons a q ih =>
    rw [List.foldl_cons]
    have hstep :
        (match find_task table a with
         | some task =>
           if (task.state = task_state_t.ready ∨ task.state = task_state_t.running) ∧
               task.priority.toNat > (4294967295, 0).1 then
             (task.priority.toNat, a)
           else (4294967295, 0)
         | none => ((4294967295 : Nat), (0 : Nat))) = (4294967295, 0) := by
      cases hf : find_task table a with
      | none => rfl
      | some task =>
        have hle : ¬ task.priority.toNat > (4294967295 : Nat) := by
          cases task.priority <;> simp [task_priority_t.toNat]
        simp [hle]
    rw [hstep, ih]

/-- C4: scheduler_next_task_core0 never selects any task. The priority scan
starts from max_priority = (task_priority_t)(-1); the enumerated type is
unsigned on GCC (no negative enumerator), so the sentinel is 4294967295 and
`task->priority > max_priority` is false for every stored priority (0..3).
The function therefore returns 0 (idle) on EVERY scheduler state — in
particular on the S4 state (Ready tasks Low/Normal/High on core 0, where the
claim demands the High task id 3) and on a state whose only Ready task has
Low priority (where the claim demands id 1). -/
theorem C4_next_task_core0_always_idle :
    (∀ st : sched_state_t, (scheduler_next_task_core0 st).1 = 0) ∧
    (scheduler_next_task_core0 C4_s4_state).1 = 0 ∧
    (scheduler_next_task_core0 C4_low_only_state).1 = 0 := by
  have hall : ∀ st : sched_state_t, (scheduler_next_task_core0 st).1 = 0 := by
    intro st
    unfold scheduler_next_task_core0
    by_cases h : st.core0_queue.length = 0
    · simp [h]
    · simp only [h, if_false]
      rw [scheduler_scan_stays_at_sentinel]
      simp
  exact ⟨hall, hall _, hall _⟩

/-- C8: a concrete create/terminate sequence after which two live descriptors
carry the same task id 16. Fifteen creations hand out ids 1..15 from the
counter (next_id ends at 16); the sixteenth creation takes the nearly-full
search path and hands out id 16 without advancing next_id; after terminating
task 1 another search-path creation hands out id 1; terminating ids 2 and 3
drops the table below the nearly-full threshold, so the final creation takes
the counter path and returns id 16 again while the search-allocated task 16
is still live. -/
theorem C8_duplicate_live_task_id :
    C8_final.1 = 16 ∧
    (16 ∈ C8_after_free23.task_table.map (fun t => t.task_id)) ∧
    ((C8_final.2.task_table.map (fun t => t.task_id)).count 16 = 2) := by
  decide

/-- C3 counterexample: the watchdog does not clamp. A requested timeout of
0 ms (below the minimum) makes wdt_init and wdt_enable return false and leave
the state unchanged, where the claim demands success with the clamped value
1 ms; a requested timeout of 9000 ms (above the maximum) is likewise
rejected, where the claim demands success with 8388 ms. -/
theorem C3_watchdog_no_clamp_counterexample :
    wdt_init wdt_state_init 0 false 0 = (false, wdt_state_init) ∧
    wdt_enable wdt_state_init 0 0 = (false, wdt_state_init) ∧
    wdt_init wdt_state_init 9000 false 0 = (false, wdt_state_init) ∧
    wdt_enable wdt_state_init 9000 0 = (false, wdt_state_init) := by
  decide

/-- C3 as amended: wdt_init and wdt_enable range-check instead of clamping.
For a requested timeout within [1 ms, 8388 ms] both succeed and store exactly
the requested value (wdt_enable also enables the watchdog); for a timeout
outside the range both return false and leave the watchdog state unchanged. -/
theorem C3_watchdog_range_check :
    ∀ (st : wdt_state_t) (t : Nat) (cr : Bool) (now : Nat),
      if WATCHDOG_TIMEOUT_MIN_MS ≤ t ∧ t ≤ WATCHDOG_TIMEOUT_MAX_MS then
        (wdt_init st t cr now).1 = true ∧
        (wdt_init st t cr now).2.timeout_ms = t ∧
        (wdt_enable st t now).1 = true ∧
        (wdt_enable st t now).2.timeout_ms = t ∧
        (wdt_enable st t now).2.enabled = true
      else
        wdt_init st t cr now = (false, st) ∧ wdt_enable st t now = (false, st) := by
  intro st t cr now
  by_cases h : WATCHDOG_TIMEOUT_MIN_MS ≤ t ∧ t ≤ WATCHDOG_TIMEOUT_MAX_MS
  · rw [if_pos h]
    have hc : ¬ (t < WATCHDOG_TIMEOUT_MIN_MS ∨ t > WATCHDOG_TIMEOUT_MAX_MS) := by
      simp only [WATCHDOG_TIMEOUT_MIN_MS, WATCHDOG_TIMEOUT_MAX_MS] at *
      omega
    cases cr <;> simp [wdt_init, wdt_enable, hc]
  · rw [if_neg h]
    have hc : t < WATCHDOG_TIMEOUT_MIN_MS ∨ t > WATCHDOG_TIMEOUT_MAX_MS := by
      simp only [WATCHDOG_TIMEOUT_MIN_MS, WATCHDOG_TIMEOUT_MAX_MS] at *
      omega
    simp [wdt_init, wdt_enable, hc]

/-- C6: kernel_calloc has no overflow guard. With count = 2147483649 and
size = 2 the 32-bit product wraps to 2, so kernel_calloc on the fresh kernel
heap returns a non-null pointer (the heap base) backed by only 8 reserved
bytes and advances the bump state, where the claim (and the spec) demand a
null return with the heap untouched; interpreter_calloc behaves the same. -/
theorem C6_calloc_overflow_not_guarded :
    (kernel_calloc kernel_heap_init 2147483649 2).1 = some KERNEL_HEAP_BASE ∧
    (kernel_calloc kernel_heap_init 2147483649 2).2.used_size = 8 ∧
    (kernel_calloc kernel_heap_init 2147483649 2).2 ≠ kernel_heap_init ∧
    (interpreter_calloc interpreter_heap_init 2147483649 2).1 = some INTERPRETER_HEAP_BASE ∧
    (interpreter_calloc interpreter_heap_init 2147483649 2).2 ≠ interpreter_heap_init := by
  decide

/-- C7 counterexample: perm_check tests bit overlap, not bit inclusion. The
owner of a mode-0400 resource requesting Read+Write (bits 6) is allowed by
the code (4 AND 6 is nonzero) although the owner bits do not include Write,
so the check as the claim words it (perm_check_claimed) would deny. -/
theorem C7_perm_check_overlap_counterexample :
    perm_check S5_user_ctx C7_owner_0400 6 = true ∧
    perm_check_claimed S5_user_ctx C7_owner_0400 6 = false := by
  decide

/-- C7 as amended: perm_check returns true iff the effective uid is root,
or otherwise the mode bits of the one applicable class (owner when the
effective uid matches the owner uid, else group when the effective gid
matches the owner gid, else other) INTERSECT the requested permission bits —
at least one requested bit is granted, not necessarily all. The S5 instances
hold as claimed: uid 1000 reading a root-owned 0600 resource is denied and
the same resource with mode 0644 is allowed. -/
theorem C7_perm_check_characterization :
    (∀ (ctx : task_sec_ctx_t) (res : resource_perm_t) (req : Nat),
      perm_check ctx res req = true ↔
        (ctx.euid = 0 ∨
         (ctx.euid ≠ 0 ∧ ctx.euid = res.owner_uid ∧
          PERM_GET_OWNER res.perms &&& req ≠ 0) ∨
         (ctx.euid ≠ 0 ∧ ctx.euid ≠ res.owner_uid ∧ ctx.egid = res.owner_gid ∧
          PERM_GET_GROUP res.perms &&& req ≠ 0) ∨
         (ctx.euid ≠ 0 ∧ ctx.euid ≠ res.owner_uid ∧ ctx.egid ≠ res.owner_gid ∧
          PERM_GET_OTHER res.perms &&& req ≠ 0))) ∧
    perm_check S5_user_ctx S5_root_0600 4 = false ∧
    perm_check S5_user_ctx S5_root_0644 4 = true := by
  refine ⟨fun ctx res req => ?_, by decide, by decide⟩
  unfold perm_check UID_ROOT
  dsimp only
  split_ifs with h1 h2 h3 <;> simp_all [bne_iff_ne]

/-- C9 counterexample: perm_chmod gates on the REAL uid, not the effective
uid. A caller whose effective uid (5) equals the resource owner uid but whose
real uid is 1000 is denied by the code (which compares the real uid against
the owner and the effective uid only against root), where the claim demands
success. -/
theorem C9_chmod_real_uid_counterexample :
    perm_chmod C9_euid5_ctx C9_owner5_res 0o644 = (false, C9_owner5_res) := by
  decide

/-- C9 as amended: perm_chmod succeeds and replaces the mode bits iff the
REAL uid of the caller equals the resource owner uid or the caller is root
(effective uid 0); in every other case it returns false and leaves the
resource record unchanged. -/
theorem C9_perm_chmod_characterization :
    ∀ (ctx : task_sec_ctx_t) (res : resource_perm_t) (new_perms : Nat),
      if ctx.uid = res.owner_uid ∨ ctx.euid = 0 then
        perm_chmod ctx res new_perms = (true, { res with perms := new_perms })
      else
        perm_chmod ctx res new_perms = (false, res) := by
  intro ctx res new_perms
  by_cases h : ctx.uid = res.owner_uid ∨ ctx.euid = 0
  · rw [if_pos h]
    rcases h with h | h <;> simp [perm_chmod, UID_ROOT, h]
  · rw [if_neg h]
    push_neg at h
    simp [perm_chmod, UID_ROOT, h.1, h.2]

/-- C1: pre-sync data is NOT protected from post-sync writes. In the trace
format(64); open-create "/a"; write [1,2,3]; sync; open "/a"; write [9,9,9]
(no sync); discard all in-memory state; remount — every step succeeds, the
remount is clean and fsck passes, but reading "/a" returns the post-sync
bytes [9,9,9]: the in-place data-block write of fs_write destroyed the
synced content, where the claim requires data written before the last sync
to be recoverable after the crash. -/
theorem C1_presync_data_lost :
    C1_o1.1 = FS_OK ∧ C1_w1.1 = 3 ∧ C1_y1.1 = FS_OK ∧
    C1_o2.1 = FS_OK ∧ C1_w2.1 = 3 ∧
    C1_m2.1 = FS_OK ∧ fs_fsck C1_m2.2 = FS_OK ∧ C1_o3.1 = FS_OK ∧
    C1_r3.1 = 3 ∧ C1_r3.2.1 = [9, 9, 9] ∧ C1_r3.2.1 ≠ [1, 2, 3] := by
  decide

/-- C5: a directory add that spills into a second block makes earlier
entries unfindable. Nineteen fs_dir_add calls with pairwise distinct names
on the fresh root directory all report success, but afterwards the first
eighteen names are not found (the spilling add wrote the new block image
over directory block 0, because the write_out path of fs_dir_add recomputes
the size from the stale value and targets the last block of that size),
while the nineteenth name resolves to its inode. -/
theorem C5_spill_clobbers_earlier_entries :
    C5_trace.1 = List.replicate 19 FS_OK ∧
    ((List.range 19).map C5_name).Nodup ∧
    fs_dir_lookup C5_trace.2.2 C5_trace.2.1 (C5_name 0) = (FS_ERR_NOT_FOUND, 0) ∧
    fs_dir_lookup C5_trace.2.2 C5_trace.2.1 (C5_name 17) = (FS_ERR_NOT_FOUND, 0) ∧
    fs_dir_lookup C5_trace.2.2 C5_trace.2.1 (C5_name 18) = (FS_OK, 21) := by
  decide

/-- The status of a non-creating fs_bmap is OK or Unsupported. -/
theorem fs_bmap_false_status {σ : Type} (fs : Fs σ) (ino : fs_inode) (lb : Nat) :
    (fs_bmap fs ino lb false).1 = FS_OK ∨ (fs_bmap fs ino lb false).1 < 0 := by
  unfold fs_bmap
  by_cases h : lb ≥ FS_DIRECT_BLOCKS
  · rw [if_pos h]
    right
    exact (by decide : FS_ERR_UNSUPPORTED < (0 : Int))
  · rw [if_neg h]
    dsimp only
    split_ifs <;> first | exact Or.inl rfl | simp_all

/-- With a backend whose read statuses are OK or negative, fs_load_inode
returns OK or a negative error. -/
theorem fs_load_inode_status {σ : Type} (fs : Fs σ) (ino : Nat)
    (hbe : ∀ b, (fs.be.read_block fs.ctx b).1 = FS_OK ∨
      (fs.be.read_block fs.ctx b).1 < 0) :
    (fs_load_inode fs ino).1 = FS_OK ∨ (fs_load_inode fs ino).1 < 0 := by
  have hb : (fs_read_block_i fs ((fs.nat.getD ino fs_nat_entry.zero).block_addr)).1 = FS_OK ∨
      (fs_read_block_i fs ((fs.nat.getD ino fs_nat_entry.zero).block_addr)).1 < 0 :=
    hbe ((fs.nat.getD ino fs_nat_entry.zero).block_addr)
  unfold fs_load_inode
  by_cases h1 : ino ≥ fs.sb.total_inodes ∨ ino = 0
  · rw [if_pos h1]
    right
    exact (by decide : FS_ERR_INVALID_INODE < (0 : Int))
  · rw [if_neg h1]
    dsimp only
    by_cases h2 : (fs.nat.getD ino fs_nat_entry.zero).block_addr = FS_INVALID_BLOCK
    · rw [if_pos h2]
      right
      exact (by decide : FS_ERR_INVALID_INODE < (0 : Int))
    · rw [if_neg h2]
      rcases hb with h | h
      · rw [if_neg (not_not_intro h)]
        by_cases h3 :
            (fs_read_block_i fs
              ((fs.nat.getD ino fs_nat_entry.zero).block_addr)).2.asInode.inode_num ≠ ino
        · rw [if_pos h3]
          right
          exact (by decide : FS_ERR_CORRUPTED < (0 : Int))
        · rw [if_neg h3]
          left
          rfl
      · have hne :
            (fs_read_block_i fs ((fs.nat.getD ino fs_nat_entry.zero).block_addr)).1 ≠ FS_OK := by
          intro he
          rw [he] at h
          exact absurd h (by decide)
        rw [if_pos hne]
        right
        exact h

/-- Status and completion of the fs_read transfer loop: the status is OK or
negative, and when the loop reports OK with enough fuel, the final done
counter is exactly the requested count. -/
theorem fs_read_loop_spec {σ : Type} (fs : Fs σ) (ino : fs_inode) (pos count : Nat)
    (hbe : ∀ b, (fs.be.read_block fs.ctx b).1 = FS_OK ∨
      (fs.be.read_block fs.ctx b).1 < 0) :
    ∀ (fuel : Nat) (done : Nat) (acc : List Nat),
      ((fs_read_loop fs ino pos count fuel done acc).1 = FS_OK ∨
       (fs_read_loop fs ino pos count fuel done acc).1 < 0) ∧
      ((fs_read_loop fs ino pos count fuel done acc).1 = FS_OK →
        done ≤ count → count ≤ done + fuel →
        (fs_read_loop fs ino pos count fuel done acc).2.2 = count) := by
  intro fuel
  induction fuel with
  | zero =>
    intro done acc
    refine ⟨Or.inl rfl, fun _ h1 h2 => ?_⟩
    show done = count
    omega
  | succ fuel ih =>
    intro done acc
    by_cases hlt : done < count
    · have hmod : (pos + done) % FS_BLOCK_SIZE < FS_BLOCK_SIZE :=
        Nat.mod_lt _ (by norm_num [FS_BLOCK_SIZE])
      have hc1 : 1 ≤ min (FS_BLOCK_SIZE - (pos + done) % FS_BLOCK_SIZE) (count - done) :=
        le_min (by omega) (by omega)
      have hc2 : min (FS_BLOCK_SIZE - (pos + done) % FS_BLOCK_SIZE) (count - done) ≤
          count - done := Nat.min_le_right _ _
      rcases hb : fs_bmap fs ino ((pos + done) / FS_BLOCK_SIZE) false with ⟨r, phys, i2, f2⟩
      have hbs := fs_bmap_false_status fs ino ((pos + done) / FS_BLOCK_SIZE)
      rw [hb] at hbs
      simp only [fs_read_loop, if_pos hlt, hb]
      by_cases hr : r = FS_OK
      · rw [if_neg (not_not_intro hr)]
        by_cases hphys : phys = FS_INVALID_BLOCK
        · rw [if_pos hphys]
          have hrec := ih (done + min (FS_BLOCK_SIZE - (pos + done) % FS_BLOCK_SIZE)
            (count - done)) (acc ++ List.replicate (min (FS_BLOCK_SIZE -
            (pos + done) % FS_BLOCK_SIZE) (count - done)) 0)
          exact ⟨hrec.1, fun hok h1 h2 => hrec.2 hok (by omega) (by omega)⟩
        · rw [if_neg hphys]
          have hr2 : (fs_read_block_i fs phys).1 = FS_OK ∨
              (fs_read_block_i fs phys).1 < 0 := hbe phys
          rcases hrd : fs_read_block_i fs phys with ⟨r2, blk⟩
          rw [hrd] at hr2
          simp only
          by_cases hr2ok : r2 = FS_OK
          · rw [if_neg (not_not_intro hr2ok)]
            have hrec := ih (done + min (FS_BLOCK_SIZE - (pos + done) % FS_BLOCK_SIZE)
              (count - done)) (acc ++ (blk.asData.drop ((pos + done) % FS_BLOCK_SIZE)).take
              (min (FS_BLOCK_SIZE - (pos + done) % FS_BLOCK_SIZE) (count - done)))
            exact ⟨hrec.1, fun hok h1 h2 => hrec.2 hok (by omega) (by omega)⟩
          · rw [if_pos hr2ok]
            refine ⟨?_, fun hok _ _ => ?_⟩
            · rcases hr2 with h | h
              · exact absurd h hr2ok
              · exact Or.inr h
            · rcases hr2 with h | h
              · exact absurd h hr2ok
              · exact absurd hok (by simp only [FS_OK] at h ⊢; omega)
      · rw [if_pos hr]
        refine ⟨?_, fun hok _ _ => ?_⟩
        · rcases hbs with h | h
          · exact absurd h hr
          · exact Or.inr h
        · rcases hbs with h | h
          · exact absurd h hr
          · exact absurd hok (by simp only [FS_OK] at h ⊢; omega)
    · have hstep : fs_read_loop fs ino pos count (fuel + 1) done acc = (FS_OK, acc, done) := by
        simp only [fs_read_loop, if_neg hlt]
      rw [hstep]
      exact ⟨Or.inl rfl, fun _ h1 h2 => by show done = count; omega⟩

/-- C10: fs_read failure atomicity. For every filesystem state over a
backend whose read statuses are OK or negative errors, and every handle and
count: when fs_read returns an error (negative), the handle — in particular
its position — is unchanged; when it returns a non-negative byte count n,
the position has advanced by exactly n, and n is the whole clipped transfer
(0 at or past EOF, otherwise the count clipped to the remaining file size),
so a transfer that failed partway (after copying some bytes) never moves the
position. -/
theorem C10_fs_read_failure_atomicity {σ : Type} (fs : Fs σ) (fd : fs_file) (count : Nat)
    (hbe : ∀ b, (fs.be.read_block fs.ctx b).1 = FS_OK ∨
      (fs.be.read_block fs.ctx b).1 < 0) :
    ((fs_read fs fd count).1 < 0 → (fs_read fs fd count).2.2 = fd) ∧
    (∀ n : Nat, (fs_read fs fd count).1 = Int.ofNat n →
      (fs_read fs fd count).2.2.position = fd.position + n ∧
      n = (if ((fs_load_inode fs fd.inode_num).2).size ≤ fd.position then 0
           else min count (((fs_load_inode fs fd.inode_num).2).size - fd.position))) := by
  have hload := fs_load_inode_status fs fd.inode_num hbe
  rcases hl : fs_load_inode fs fd.inode_num with ⟨r, ino⟩
  rw [hl] at hload
  unfold fs_read
  rw [hl]
  dsimp only
  by_cases hr : r = FS_OK
  · rw [if_neg (not_not_intro hr)]
    by_cases hpos : fd.position ≥ ino.size
    · rw [if_pos hpos]
      refine ⟨fun h => absurd (show (0 : Int) < 0 from h) (by omega), fun n hn => ?_⟩
      have hn' : Int.ofNat n = Int.ofNat 0 := hn.symm
      have hn0 : n = 0 := Int.ofNat.inj hn'
      rw [if_pos hpos]
      exact ⟨show fd.position = fd.position + n by omega, hn0⟩
    · rw [if_neg hpos]
      have hloop := fs_read_loop_spec fs ino fd.position
        (if count > ino.size - fd.position then ino.size - fd.position else count) hbe
        (if count > ino.size - fd.position then ino.size - fd.position else count) 0 []
      rcases hrl : fs_read_loop fs ino fd.position
          (if count > ino.size - fd.position then ino.size - fd.position else count)
          (if count > ino.size - fd.position then ino.size - fd.position else count) 0 []
        with ⟨r2, acc, done⟩
      rw [hrl] at hloop
      dsimp only
      by_cases hr2 : r2 = FS_OK
      · rw [if_neg (not_not_intro hr2)]
        have hdone : done =
            (if count > ino.size - fd.position then ino.size - fd.position else count) :=
          hloop.2 hr2 (Nat.zero_le _) (by omega)
        refine ⟨fun h => absurd (show Int.ofNat done < 0 from h)
          (Int.ofNat_nonneg done).not_lt, fun n hn => ?_⟩
        have hdn' : Int.ofNat done = Int.ofNat n := hn
        have hdn : done = n := Int.ofNat.inj hdn'
        rw [if_neg (by omega : ¬ ino.size ≤ fd.position)]
        refine ⟨show fd.position + done = fd.position + n by omega, ?_⟩
        rw [← hdn, hdone, Nat.min_def]
        split_ifs <;> omega
      · rw [if_pos hr2]
        have hneg : r2 < 0 := by
          rcases hloop.1 with h | h
          · exact absurd h hr2
          · exact h
        refine ⟨fun _ => rfl, fun n hn => ?_⟩
        have hn' : r2 = Int.ofNat n := hn
        rw [hn'] at hneg
        exact absurd hneg (Int.ofNat_nonneg n).not_lt
  · rw [if_pos hr]
    have hneg : r < 0 := by
      rcases hload with h | h
      · exact absurd h hr
      · exact h
    refine ⟨fun _ => rfl, fun n hn => ?_⟩
    have hn' : r = Int.ofNat n := hn
    rw [hn'] at hneg
    exact absurd hneg (Int.ofNat_nonneg n).not_lt

/-- Witness for C10: on the concrete one-bad-block filesystem, a 1024-byte
read fails after the first 512 bytes were copied, and the returned handle is
exactly the original one (position unchanged). -/
theorem C10_fs_read_failure_atomicity_witness :
    (fs_read C10_fs C10_fd 1024).1 < 0 ∧ (fs_read C10_fs C10_fd 1024).2.2 = C10_fd := by
  have hbe : ∀ b, (C10_fs.be.read_block C10_fs.ctx b).1 = FS_OK ∨
      (C10_fs.be.read_block C10_fs.ctx b).1 < 0 := by
    intro b
    unfold C10_fs C10_be
    dsimp only
    split_ifs
    · left; rfl
    · right; decide
    · left; rfl
  have hneg : (fs_read C10_fs C10_fd 1024).1 < 0 := by decide
  exact ⟨hneg, (C10_fs_read_failure_atomicity C10_fs C10_fd 1024 hbe).1 hneg⟩

theorem C2_open_ok : (fs_open C2_s0 C2_path C2_flags).1 = FS_OK := by decide

theorem C2_fd1_eq : C2_fd1 = { inode_num := 1, position := 0, flags := 25 } := by decide

theorem C2_ctx9 : C2_s1.ctx 9 = Block.ino C2_newi := by decide

theorem C2_ctx10 : C2_s1.ctx 10 = Block.dirb C2_dirents := by decide

theorem C2_ctx11 : C2_s1.ctx 11 = Block.ino C2_root2 := by decide

theorem C2_s1_eq : C2_s1 = C2_mkfs C2_s1.ctx C2_nat1 (C2_sit 4) 52 := by rfl


theorem C2_alloc (j : Nat) (hj : j ≤ 10) (d : Nat → Block) (natl : List fs_nat_entry)
    (fbc : Nat) :
    fs_find_first_free_data_block (C2_mkfs d natl (C2_sit (4 + j)) fbc) = 12 + j := by
  interval_cases j <;> with_unfolding_all rfl

theorem C2_mark (j : Nat) (hj : j ≤ 10) (d : Nat → Block) (natl : List fs_nat_entry)
    (fbc : Nat) :
    fs_mark_block_valid (C2_mkfs d natl (C2_sit (4 + j)) fbc) (12 + j) =
    (FS_OK, C2_mkfs d natl (C2_sit (5 + j)) fbc) := by
  interval_cases j <;> rfl

theorem C2_wb (d : Nat → Block) (natl : List fs_nat_entry) (sitl : List fs_sit_entry)
    (fbc : Nat) (b : Nat) (v : Block) :
    fs_write_block_i (C2_mkfs d natl sitl fbc) b v =
    (FS_OK, C2_mkfs (Function.update d b v) natl sitl fbc) := by
  unfold fs_write_block_i
  dsimp only [C2_mkfs, ram_backend]

theorem C2_direct_getD (j K : Nat) (hj : j < 10) :
    (C2_direct K).getD j 0 = if j < K then 12 + j else FS_INVALID_BLOCK := by
  interval_cases j <;> rfl

theorem C2_direct_set (j : Nat) (hj : j < 10) :
    (C2_direct j).set j (12 + j) = C2_direct (j + 1) := by
  interval_cases j <;> rfl

theorem C2_bmap_create (j : Nat) (hj : j < 10) (d : Nat → Block)
    (natl : List fs_nat_entry) (fbc : Nat) :
    fs_bmap (C2_mkfs d natl (C2_sit (4 + j)) fbc) { C2_newi with direct := C2_direct j }
      j true =
    (FS_OK, 12 + j, { C2_newi with direct := C2_direct (j + 1) },
      C2_mkfs d natl (C2_sit (5 + j)) (dec32 fbc)) := by
  unfold fs_bmap
  rw [if_neg (show ¬ j ≥ FS_DIRECT_BLOCKS by simp only [FS_DIRECT_BLOCKS]; omega)]
  dsimp only
  rw [C2_direct_getD j j hj, if_neg (lt_irrefl j), if_neg (fun h => h.1 rfl),
    if_neg (not_not_intro rfl), C2_alloc j (by omega) d natl fbc,
    if_neg (show ¬ 12 + j = FS_INVALID_BLOCK by simp only [FS_INVALID_BLOCK]; omega),
    C2_direct_set j hj, C2_mark j (by omega) d natl fbc]
  rfl

theorem C2_store (K : Nat) (hK : K ≤ 10) (d : Nat → Block) (fbc : Nat)
    (i : fs_inode) (hnum : i.inode_num = 1) :
    fs_store_inode (C2_mkfs d C2_nat1 (C2_sit (4 + K)) fbc) i =
    (FS_OK, C2_mkfs (Function.update d (12 + K) (Block.ino i))
      (C2_nat1.set 1 { block_addr := 12 + K, version := 2, type := 1 })
      (C2_sit (5 + K)) (dec32 fbc)) := by
  unfold fs_store_inode
  rw [hnum, show (C2_mkfs d C2_nat1 (C2_sit (4 + K)) fbc).sb.total_inodes = 256 from rfl,
    if_neg (by omega : ¬ ((1:Nat) ≥ 256 ∨ (1:Nat) = 0)),
    C2_alloc K hK d C2_nat1 fbc,
    if_neg (show ¬ 12 + K = FS_INVALID_BLOCK by simp only [FS_INVALID_BLOCK]; omega),
    C2_wb]
  dsimp only
  rw [if_neg (not_not_intro rfl), C2_mark K hK]
  rfl

theorem C2_rb (d : Nat → Block) (natl : List fs_nat_entry) (sitl : List fs_sit_entry)
    (fbc : Nat) (b : Nat) :
    fs_read_block_i (C2_mkfs d natl sitl fbc) b = (FS_OK, d b) := by
  unfold fs_read_block_i
  dsimp only [C2_mkfs, ram_backend]

theorem C2_wloop_exit (data : List Nat) (pos n : Nat) :
    ∀ (fuel : Nat) (fs : Fs (Nat → Block)) (ino : fs_inode),
    fs_write_loop data pos n fuel fs ino n = (FS_OK, ino, fs, n) := by
  intro fuel fs ino
  cases fuel with
  | zero => rfl
  | succ f =>
    simp only [fs_write_loop]
    rw [if_neg (lt_irrefl n)]

theorem C2_wloop (data : List Nat) (hlen : data.length ≤ 5120) :
    ∀ fuel j (d : Nat → Block) (fbc : Nat),
      512 * j ≤ data.length → data.length - 512 * j ≤ fuel →
    ∃ d2 fbc2,
      fs_write_loop data 0 data.length fuel (C2_mkfs d C2_nat1 (C2_sit (4 + j)) fbc)
          { C2_newi with direct := C2_direct j } (512 * j) =
        (FS_OK, { C2_newi with direct := C2_direct (C2_K data.length) },
          C2_mkfs d2 C2_nat1 (C2_sit (4 + C2_K data.length)) fbc2, data.length) ∧
      (∀ b, b < 12 + j → d2 b = d b) ∧
      (∀ i, j ≤ i → 512 * i < data.length →
        (d2 (12 + i)).asData.take (C2_clen data.length i) =
          (data.drop (512 * i)).take (C2_clen data.length i)) := by
  intro fuel
  induction fuel with
  | zero =>
    intro j d fbc hj hfuel
    have hn : data.length = 512 * j := by omega
    have hK : C2_K data.length = j := by simp only [C2_K]; omega
    refine ⟨d, fbc, ?_, fun b _ => rfl, fun i hij hin => absurd hin (by omega)⟩
    simp only [fs_write_loop, hK]
    rw [hn]
  | succ f ih =>
    intro j d fbc hj hfuel
    by_cases hdone : 512 * j = data.length
    · have hK : C2_K data.length = j := by simp only [C2_K]; omega
      refine ⟨d, fbc, ?_, fun b _ => rfl, fun i hij hin => absurd hin (by omega)⟩
      simp only [fs_write_loop, hK]
      rw [if_neg (by omega : ¬ 512 * j < data.length), hdone]
    · have hlt : 512 * j < data.length := by omega
      have hj10 : j < 10 := by omega
      simp only [fs_write_loop, FS_BLOCK_SIZE]
      rw [if_pos hlt]
      have e1 : (0 + 512 * j) / 512 = j := by omega
      have e2 : (0 + 512 * j) % 512 = 0 := by omega
      rw [e1, e2, Nat.sub_zero]
      rw [C2_bmap_create j hj10 d C2_nat1 fbc]
      dsimp only
      rw [if_neg (not_not_intro rfl),
        if_neg (by simp only [FS_INVALID_BLOCK]; omega : ¬ 12 + j = FS_INVALID_BLOCK)]
      by_cases hch : 512 ≤ data.length - 512 * j
      · have hc : min 512 (data.length - 512 * j) = 512 := by omega
        rw [hc, if_neg (not_not_intro rfl), C2_wb]
        dsimp only
        rw [if_neg (not_not_intro rfl)]
        rw [show 512 * j + 512 = 512 * (j + 1) by omega,
          show C2_sit (5 + j) = C2_sit (4 + (j + 1)) from congrArg C2_sit (by omega)]
        obtain ⟨d2, fbc2, heq, hlow, hdat⟩ :=
          ih (j + 1) (Function.update d (12 + j)
            (Block.data ((data.drop (512 * j)).take 512))) (dec32 fbc)
            (by omega) (by omega)
        rw [heq]
        refine ⟨d2, fbc2, rfl, ?_, ?_⟩
        · intro b hb
          rw [hlow b (by omega), Function.update_noteq (by omega)]
        · intro i hij hin
          rcases Nat.eq_or_lt_of_le hij with he | hlt2
          · have hi : i = j := he.symm
            subst hi
            rw [hlow (12 + i) (by omega), Function.update_same]
            dsimp only [Block.asData]
            simp only [C2_clen, hc, List.take_take, Nat.min_self]
          · exact hdat i (by omega) hin
      · have hc : min 512 (data.length - 512 * j) = data.length - 512 * j := by omega
        rw [hc, if_pos (by omega : ¬ data.length - 512 * j = 512), C2_rb]
        dsimp only
        rw [if_neg (not_not_intro rfl)]
        simp only [List.take_zero, List.nil_append, Nat.zero_add]
        rw [C2_wb]
        dsimp only
        rw [if_neg (not_not_intro rfl)]
        rw [show 512 * j + (data.length - 512 * j) = data.length by omega]
        rw [C2_wloop_exit]
        have hK : C2_K data.length = j + 1 := by simp only [C2_K]; omega
        refine ⟨Function.update d (12 + j)
          (Block.data ((data.drop (512 * j)).take (data.length - 512 * j) ++
            (d (12 + j)).asData.drop (data.length - 512 * j))), dec32 fbc, ?_, ?_, ?_⟩
        · rw [hK, show C2_sit (5 + j) = C2_sit (4 + (j + 1)) from congrArg C2_sit (by omega),
            show C2_direct (j + 1) = C2_direct (C2_K data.length) from
              congrArg C2_direct (by omega)]
        · intro b hb
          rw [Function.update_noteq (by omega)]
        · intro i hij hin
          have hij2 : i = j := by omega
          subst hij2
          rw [Function.update_same]
          dsimp only [Block.asData]
          simp only [C2_clen]
          rw [show min 512 (data.length - 512 * i) = data.length - 512 * i by omega]
          rw [List.take_append_eq_append_take,
            List.take_of_length_le (by simp [List.length_take]),
            show data.length - 512 * i -
              ((data.drop (512 * i)).take (data.length - 512 * i)).length = 0 by
                simp only [List.length_take, List.length_drop]; omega,
            List.take_zero, List.append_nil]

theorem C2_load (d : Nat → Block) (natl : List fs_nat_entry) (sitl : List fs_sit_entry)
    (fbc : Nat) (k : Nat) (e : fs_nat_entry) (v : fs_inode)
    (hk : k < 256) (hk0 : k ≠ 0)
    (he : natl.getD k fs_nat_entry.zero = e)
    (hbe : e.block_addr ≠ FS_INVALID_BLOCK)
    (hv : d e.block_addr = Block.ino v)
    (hnum : v.inode_num = k) :
    fs_load_inode (C2_mkfs d natl sitl fbc) k = (FS_OK, v) := by
  unfold fs_load_inode
  rw [show (C2_mkfs d natl sitl fbc).nat = natl from rfl,
    show (C2_mkfs d natl sitl fbc).sb.total_inodes = 256 from rfl,
    if_neg (by omega : ¬ (k ≥ 256 ∨ k = 0)),
    he, if_neg hbe, C2_rb, hv]
  dsimp only
  rw [if_neg (not_not_intro rfl)]
  dsimp only [Block.asInode]
  rw [hnum, if_neg (not_not_intro rfl)]

theorem C2_bmap_root {σ : Type} (fs : Fs σ) :
    fs_bmap fs C2_root2 0 false = (FS_OK, 10, C2_root2, fs) := rfl

theorem C2_dirlookup (d : Nat → Block) (natl : List fs_nat_entry)
    (sitl : List fs_sit_entry) (fbc : Nat)
    (h10 : d 10 = Block.dirb C2_dirents) :
    fs_dir_lookup (C2_mkfs d natl sitl fbc) C2_root2 C2_name = (FS_OK, 1) := by
  unfold fs_dir_lookup
  rw [if_neg (by decide : ¬ C2_root2.mode &&& FS_MODE_DIR = 0)]
  dsimp only
  rw [show (C2_root2.size + FS_BLOCK_SIZE - 1) / FS_BLOCK_SIZE = 0 + 1 from rfl]
  simp only [fs_dir_lookup_blocks]
  rw [C2_bmap_root]
  dsimp only
  rw [if_neg (not_not_intro rfl), if_neg (by decide : ¬ (10:Nat) = FS_INVALID_BLOCK),
    C2_rb, h10]
  dsimp only
  rw [if_neg (not_not_intro rfl)]
  dsimp only [Block.asDir]
  rw [show dir_block_lookup C2_name (fs_name_hash C2_name) C2_dirents 0 = some 1 from rfl]

theorem C2_resolve (data : List Nat) (hlen : data.length ≤ 5120) (d3 : Nat → Block)
    (sitl : List fs_sit_entry) (fbc3 : Nat)
    (h10 : d3 10 = Block.dirb C2_dirents)
    (h11 : d3 11 = Block.ino C2_root2)
    (hKb : d3 (12 + C2_K data.length) = Block.ino (C2_ino2 data)) :
    fs_resolve_path (C2_mkfs d3 (C2_natK data) sitl fbc3) C2_path =
      (FS_OK, 1, FS_ROOT_INODE, []) := by
  unfold fs_resolve_path
  rw [if_neg (not_not_intro (show C2_path.getD 0 0 = 47 from rfl))]
  rw [C2_load d3 (C2_natK data) sitl fbc3 FS_ROOT_INODE
    { block_addr := 11, version := 2, type := 1 } C2_root2
    (by decide) (by decide) rfl (by decide) h11 rfl]
  dsimp only
  rw [if_neg (not_not_intro rfl),
    show next_component C2_path = some (C2_name, []) from rfl]
  dsimp only
  simp only [fs_resolve_path_loop]
  rw [C2_dirlookup d3 (C2_natK data) sitl fbc3 h10]
  dsimp only
  rw [if_neg (not_not_intro rfl)]
  rw [C2_load d3 (C2_natK data) sitl fbc3 1
    { block_addr := 12 + C2_K data.length, version := 2, type := 1 } (C2_ino2 data)
    (by decide) (by decide) rfl
    (show ¬ 12 + C2_K data.length = FS_INVALID_BLOCK by
      simp only [C2_K, FS_INVALID_BLOCK]; omega)
    hKb rfl]
  dsimp only
  rw [if_neg (not_not_intro rfl), show next_component [] = none from rfl]

theorem C2_reopen (data : List Nat) (hlen : data.length ≤ 5120) (d3 : Nat → Block)
    (sitl : List fs_sit_entry) (fbc3 : Nat)
    (h10 : d3 10 = Block.dirb C2_dirents)
    (h11 : d3 11 = Block.ino C2_root2)
    (hKb : d3 (12 + C2_K data.length) = Block.ino (C2_ino2 data)) :
    fs_open (C2_mkfs d3 (C2_natK data) sitl fbc3) C2_path FS_O_RDONLY =
    (FS_OK, { inode_num := 1, position := 0, flags := FS_O_RDONLY },
      C2_mkfs d3 (C2_natK data) sitl fbc3) := by
  unfold fs_open
  rw [C2_resolve data hlen d3 sitl fbc3 h10 h11 hKb]
  dsimp only
  rw [if_neg (by decide :
      ¬ (FS_OK = FS_ERR_NOT_FOUND ∧ FS_O_RDONLY &&& FS_O_CREAT ≠ 0)),
    if_neg (not_not_intro rfl)]

theorem C2_rloop_exit (data : List Nat) (ino : fs_inode) (pos n : Nat) :
    ∀ (fuel : Nat) (fs : Fs (Nat → Block)) (acc : List Nat),
    fs_read_loop fs ino pos n fuel n acc = (FS_OK, acc, n) := by
  intro fuel fs acc
  cases fuel with
  | zero => rfl
  | succ f =>
    simp only [fs_read_loop]
    rw [if_neg (lt_irrefl n)]

theorem C2_bmap_read (data : List Nat) (j : Nat) (hj : j < 10)
    (hjK : j < C2_K data.length) {σ : Type} (fs : Fs σ) :
    fs_bmap fs (C2_ino2 data) j false = (FS_OK, 12 + j, C2_ino2 data, fs) := by
  unfold fs_bmap
  rw [if_neg (show ¬ j ≥ FS_DIRECT_BLOCKS by simp only [FS_DIRECT_BLOCKS]; omega)]
  dsimp only [C2_ino2]
  rw [C2_direct_getD j (C2_K data.length) hj, if_pos hjK,
    if_pos (⟨by simp only [FS_INVALID_BLOCK]; omega, by omega⟩ :
      12 + j ≠ FS_INVALID_BLOCK ∧ 12 + j ≠ 0)]

theorem C2_rloop (data : List Nat) (hlen : data.length ≤ 5120) (d3 : Nat → Block)
    (natl : List fs_nat_entry) (sitl : List fs_sit_entry) (fbc3 : Nat)
    (hdat : ∀ i, 512 * i < data.length →
      (d3 (12 + i)).asData.take (C2_clen data.length i) =
        (data.drop (512 * i)).take (C2_clen data.length i)) :
    ∀ fuel j (acc : List Nat), 512 * j ≤ data.length → data.length - 512 * j ≤ fuel →
    fs_read_loop (C2_mkfs d3 natl sitl fbc3) (C2_ino2 data) 0 data.length fuel
        (512 * j) acc =
      (FS_OK, acc ++ (data.drop (512 * j)).take (data.length - 512 * j), data.length) := by
  intro fuel
  induction fuel with
  | zero =>
    intro j acc hj hfuel
    simp only [fs_read_loop]
    rw [show data.length - 512 * j = 0 from by omega, List.take_zero, List.append_nil,
      show data.length = 512 * j from by omega]
  | succ f ih =>
    intro j acc hj hfuel
    by_cases hdone : 512 * j = data.length
    · simp only [fs_read_loop]
      rw [if_neg (by omega : ¬ 512 * j < data.length),
        show data.length - 512 * j = 0 from by omega, List.take_zero, List.append_nil,
        show data.length = 512 * j from by omega]
    · have hlt : 512 * j < data.length := by omega
      have hj10 : j < 10 := by omega
      have hjK : j < C2_K data.length := by simp only [C2_K]; omega
      simp only [fs_read_loop, FS_BLOCK_SIZE]
      rw [if_pos hlt]
      have e1 : (0 + 512 * j) / 512 = j := by omega
      have e2 : (0 + 512 * j) % 512 = 0 := by omega
      rw [e1, e2, Nat.sub_zero, C2_bmap_read data j hj10 hjK]
      dsimp only
      rw [if_neg (not_not_intro rfl),
        if_neg (by simp only [FS_INVALID_BLOCK]; omega : ¬ 12 + j = FS_INVALID_BLOCK),
        C2_rb]
      dsimp only
      rw [if_neg (not_not_intro rfl), List.drop_zero,
        show min 512 (data.length - 512 * j) = C2_clen data.length j from rfl,
        hdat j (by omega)]
      by_cases hch : 512 ≤ data.length - 512 * j
      · rw [show 512 * j + C2_clen data.length j = 512 * (j + 1) from by
          simp only [C2_clen]; omega]
        rw [ih (j + 1) (acc ++ (data.drop (512 * j)).take (C2_clen data.length j))
          (by omega) (by omega)]
        rw [List.append_assoc,
          show C2_clen data.length j = 512 from by simp only [C2_clen]; omega,
          show (512 : Nat) * (j + 1) = 512 + 512 * j from by omega,
          show data.length - 512 * j = 512 + (data.length - (512 + 512 * j)) from by
            omega,
          List.take_add, List.drop_drop]
        rw [show (512 : Nat) * j + 512 = 512 + 512 * j from by omega]
      · rw [show 512 * j + C2_clen data.length j = data.length from by
          simp only [C2_clen]; omega]
        rw [C2_rloop_exit data]
        rw [show C2_clen data.length j = data.length - 512 * j from by
          simp only [C2_clen]; omega]

theorem C2_read (data : List Nat) (hlen : data.length ≤ 5120) (d3 : Nat → Block)
    (sitl : List fs_sit_entry) (fbc3 : Nat)
    (hKb : d3 (12 + C2_K data.length) = Block.ino (C2_ino2 data))
    (hdat : ∀ i, 512 * i < data.length →
      (d3 (12 + i)).asData.take (C2_clen data.length i) =
        (data.drop (512 * i)).take (C2_clen data.length i)) :
    fs_read (C2_mkfs d3 (C2_natK data) sitl fbc3)
      { inode_num := 1, position := 0, flags := FS_O_RDONLY } data.length =
    (Int.ofNat data.length, data,
      { inode_num := 1, position := data.length, flags := FS_O_RDONLY }) := by
  unfold fs_read
  dsimp only
  rw [C2_load d3 (C2_natK data) sitl fbc3 1
    { block_addr := 12 + C2_K data.length, version := 2, type := 1 } (C2_ino2 data)
    (by decide) (by decide) rfl
    (show ¬ 12 + C2_K data.length = FS_INVALID_BLOCK by
      simp only [C2_K, FS_INVALID_BLOCK]; omega)
    hKb rfl]
  dsimp only
  rw [if_neg (not_not_intro rfl), show (C2_ino2 data).size = data.length from rfl]
  by_cases hn0 : data.length = 0
  · rw [if_pos (by omega : (0:Nat) ≥ data.length)]
    have hdata : data = [] := List.eq_nil_of_length_eq_zero hn0
    subst hdata
    rfl
  · rw [if_neg (by omega : ¬ (0:Nat) ≥ data.length), Nat.sub_zero,
      if_neg (lt_irrefl data.length)]
    have hrl2 : fs_read_loop (C2_mkfs d3 (C2_natK data) sitl fbc3) (C2_ino2 data) 0
        data.length data.length 0 [] =
        (FS_OK, [] ++ data.take data.length, data.length) :=
      C2_rloop data hlen d3 (C2_natK data) sitl fbc3 hdat data.length 0 []
        (by omega) (by omega)
    rw [hrl2]
    dsimp only
    rw [if_neg (not_not_intro rfl), List.nil_append, List.take_length, Nat.zero_add]


theorem C2_write_spec (data : List Nat) (hlen : data.length ≤ 5120) :
    ∃ d3 fbc3,
      C2_w data = (Int.ofNat data.length,
        { inode_num := 1, position := data.length, flags := 25 },
        C2_mkfs d3 (C2_natK data) (C2_sit (5 + C2_K data.length)) fbc3) ∧
      d3 10 = Block.dirb C2_dirents ∧
      d3 11 = Block.ino C2_root2 ∧
      d3 (12 + C2_K data.length) = Block.ino (C2_ino2 data) ∧
      (∀ i, 512 * i < data.length →
        (d3 (12 + i)).asData.take (C2_clen data.length i) =
          (data.drop (512 * i)).take (C2_clen data.length i)) := by
  have hK10 : C2_K data.length ≤ 10 := by simp only [C2_K]; omega
  by_cases hn0 : data.length = 0
  · have hdata : data = [] := List.eq_nil_of_length_eq_zero hn0
    subst hdata
    refine ⟨(C2_w []).2.2.ctx, 51, ?_, by decide, by decide, by decide,
      fun i h => absurd h (by omega)⟩
    rfl
  · unfold C2_w
    rw [C2_fd1_eq, C2_s1_eq]
    unfold fs_write
    dsimp only
    rw [C2_load C2_s1.ctx C2_nat1 (C2_sit 4) 52 1
      { block_addr := 9, version := 1, type := 1 } C2_newi
      (by decide) (by decide) rfl (by decide) C2_ctx9 rfl]
    dsimp only
    rw [if_neg (not_not_intro rfl)]
    obtain ⟨d2, fbc2, heq, hlow, hdat⟩ :=
      C2_wloop data hlen data.length 0 C2_s1.ctx 52 (by omega) (by omega)
    have heq2 : fs_write_loop data 0 data.length data.length
        (C2_mkfs C2_s1.ctx C2_nat1 (C2_sit 4) 52) C2_newi 0 =
        (FS_OK, { C2_newi with direct := C2_direct (C2_K data.length) },
          C2_mkfs d2 C2_nat1 (C2_sit (4 + C2_K data.length)) fbc2, data.length) := heq
    rw [heq2]
    dsimp only
    rw [if_neg (not_not_intro rfl)]
    rw [show ({ C2_newi with direct := C2_direct (C2_K data.length) } : fs_inode).size = 0
      from rfl, Nat.zero_add]
    rw [if_pos (by omega : data.length > 0)]
    rw [C2_store (C2_K data.length) hK10 d2 fbc2]
    swap
    exact rfl
    dsimp only
    rw [if_neg (not_not_intro rfl)]
    refine ⟨Function.update d2 (12 + C2_K data.length) (Block.ino (C2_ino2 data)),
      dec32 fbc2, ?_, ?_, ?_, ?_, ?_⟩
    · rfl
    · rw [Function.update_noteq (by omega : (10:Nat) ≠ 12 + C2_K data.length),
        hlow 10 (by omega), C2_ctx10]
    · rw [Function.update_noteq (by omega : (11:Nat) ≠ 12 + C2_K data.length),
        hlow 11 (by omega), C2_ctx11]
    · rw [Function.update_same]
    · intro i hi
      have hiK : i < C2_K data.length := by simp only [C2_K]; omega
      rw [Function.update_noteq (by omega : 12 + i ≠ 12 + C2_K data.length)]
      exact hdat i (by omega) hi

/-- C2: write/read round-trip. On the freshly formatted and mounted 64-block
filesystem, opening /hello with O_WRONLY|O_CREAT|O_TRUNC succeeds, writing any
buffer of at most 5120 bytes (10 direct blocks) returns its length, and after
the (no-op) close, reopening /hello read-only succeeds and reading back
length-many bytes returns exactly the written bytes with fs_read returning the
length. -/
theorem C2_roundtrip (data : List Nat) (hlen : data.length ≤ 5120) :
    (fs_open C2_s0 C2_path C2_flags).1 = FS_OK ∧
    (C2_w data).1 = Int.ofNat data.length ∧
    (C2_o2 data).1 = FS_OK ∧
    (C2_r data).1 = Int.ofNat data.length ∧
    (C2_r data).2.1 = data := by
  obtain ⟨d3, fbc3, hw, h10, h11, hKb, hdat⟩ := C2_write_spec data hlen
  have hs2 : C2_s2 data =
      C2_mkfs d3 (C2_natK data) (C2_sit (5 + C2_K data.length)) fbc3 := by
    unfold C2_s2 fs_close
    rw [hw]
  have ho2 : C2_o2 data =
      (FS_OK, { inode_num := 1, position := 0, flags := FS_O_RDONLY },
        C2_mkfs d3 (C2_natK data) (C2_sit (5 + C2_K data.length)) fbc3) := by
    unfold C2_o2
    rw [hs2, C2_reopen data hlen d3 (C2_sit (5 + C2_K data.length)) fbc3 h10 h11 hKb]
  have hr : C2_r data = (Int.ofNat data.length, data,
      { inode_num := 1, position := data.length, flags := FS_O_RDONLY }) := by
    unfold C2_r
    rw [hs2, ho2]
    dsimp only
    exact C2_read data hlen d3 (C2_sit (5 + C2_K data.length)) fbc3 hKb hdat
  exact ⟨C2_open_ok, by rw [hw], by rw [ho2], by rw [hr], by rw [hr]⟩

/-- Witness for C2: the spec scenario S2, writing and reading back
"hello world" (11 bytes). -/
theorem C2_roundtrip_witness :
    ([104, 101, 108, 108, 111, 32, 119, 111, 114, 108, 100] : List Nat).length ≤ 5120 ∧
    ((fs_open C2_s0 C2_path C2_flags).1 = FS_OK ∧
     (C2_w [104, 101, 108, 108, 111, 32, 119, 111, 114, 108, 100]).1 =
       Int.ofNat ([104, 101, 108, 108, 111, 32, 119, 111, 114, 108, 100] : List Nat).length ∧
     (C2_o2 [104, 101, 108, 108, 111, 32, 119, 111, 114, 108, 100]).1 = FS_OK ∧
     (C2_r [104, 101, 108, 108, 111, 32, 119, 111, 114, 108, 100]).1 =
       Int.ofNat ([104, 101, 108, 108, 111, 32, 119, 111, 114, 108, 100] : List Nat).length ∧
     (C2_r [104, 101, 108, 108, 111, 32, 119, 111, 114, 108, 100]).2.1 =
       [104, 101, 108, 108, 111, 32, 119, 111, 114, 108, 100]) :=
  ⟨by decide, C2_roundtrip [104, 101, 108, 108, 111, 32, 119, 111, 114, 108, 100] (by decide)⟩

end LittleOS
